import Mathlib

/-! Verification of the TaskMate chat engine: shallow embedding of the
intent-detection, confirmation and store-tool layer. -/

namespace TaskMate

/-- Characters Python str.strip / str.split treat as whitespace (ASCII range). -/
def isPySpace (c : Char) : Bool :=
  c = ' ' || c = '\t' || c = '\n' || c = '\x0d' || c = '\x0b' || c = '\x0c'

/-- Python str.lower (ASCII case fold suffices for the engine's inputs). -/
def lowerStr (s : String) : String := String.mk (s.data.map Char.toLower)

/-- Python str.strip on a char list. -/
def stripList (l : List Char) : List Char :=
  ((l.dropWhile isPySpace).reverse.dropWhile isPySpace).reverse

/-- Python str.strip. -/
def pyStrip (s : String) : String := String.mk (stripList s.data)

/-- message.replace of the bullet char by a comma (intent_detector.py line 141). -/
def replaceBullet (s : String) : String :=
  String.mk (s.data.map (fun c => if c = '•' then ',' else c))

/-- Does `l` start with `pre` (case sensitive)? -/
def startsWithList : List Char → List Char → Bool
  | _, [] => true
  | [], _ :: _ => false
  | c :: cs, p :: ps => (p = c) && startsWithList cs ps

/-- Python substring test `pat in l` (case sensitive; callers lower both sides first). -/
def containsList : List Char → List Char → Bool
  | [], pat => pat.isEmpty
  | l@(_ :: cs), pat => startsWithList l pat || containsList cs pat

/-- Python `needle in haystack`. -/
def strContains (haystack needle : String) : Bool :=
  containsList haystack.data needle.data

/-- `any(k in s for k in pats)`. -/
def containsAnyOf (s : String) (pats : List String) : Bool :=
  pats.any (fun p => strContains s p)

/-- Python str.split() (split on whitespace runs, dropping empty pieces). -/
def splitWsList : List Char → List (List Char)
  | [] => []
  | c :: cs =>
    if isPySpace c then splitWsList cs
    else
      match splitWsList cs with
      | [] => [[c]]
      | w :: ws => if cs ≠ [] && isPySpace cs.head! then [c] :: w :: ws else (c :: w) :: ws

/-- len(message.split()). -/
def wordCount (s : String) : Nat := (splitWsList s.data).length

/-! ### A small pattern language

The engine's regular expressions are embedded as sequences of `Atom`s and run
by a fuelled backtracking matcher whose alternative order mirrors Python's
`re` priority (greedy atoms longest first, alternatives left to right,
optional groups present first).  `Atom.lit` compares case-insensitively,
matching the IGNORECASE flag the source sets (or the caller's prior
lower-casing of the text).  A dot never matches a newline unless the
specific pattern sets DOTALL, which callers encode via the `dotAll` flag of
the capture helpers. -/

inductive Atom : Type where
  /-- a literal string, compared case-insensitively -/
  | lit : String → Atom
  /-- one or more whitespace characters -/
  | ws1 : Atom
  /-- zero or more whitespace characters -/
  | ws0 : Atom
  /-- exactly one whitespace character -/
  | wsc : Atom
  /-- an optional group -/
  | opt : List Atom → Atom
  /-- ordered alternatives -/
  | alts : List (List Atom) → Atom
  /-- one or more digits -/
  | digits1 : Atom
  /-- between lo and hi digits, greedy -/
  | digitsR : Nat → Nat → Atom
  /-- one or more word characters -/
  | word1 : Atom
  /-- one character from the given set -/
  | chIn : String → Atom
  /-- any characters except newline, greedy -/
  | dotStar : Atom
  /-- any characters except newline, lazy -/
  | dotStarL : Atom
  /-- word boundary -/
  | bdry : Atom
  /-- start of string -/
  | bos : Atom
  /-- end of string (or just before one final newline) -/
  | eos : Atom
  deriving Repr

/-- Matcher state: the previous character (for word boundaries / start of
string) and the remaining text. -/
abbrev MState := Option Char × List Char

/-- Python regex word characters (ASCII scope). -/
def isWordChar (c : Char) : Bool := c.isAlphanum || c = '_'

/-- Length of the longest run of characters satisfying `p` at the front. -/
def runCount (p : Char → Bool) : List Char → Nat
  | [] => 0
  | c :: cs => if p c then runCount p cs + 1 else 0

/-- Advance the state by `k` characters. -/
def consumeK : Nat → MState → MState
  | 0, st => st
  | _ + 1, (pv, []) => (pv, [])
  | k + 1, (_, c :: cs) => consumeK k (some c, cs)

/-- Case-insensitive literal match, returning the state after the literal. -/
def litMatchCI : List Char → MState → Option MState
  | [], st => some st
  | _ :: _, (_, []) => none
  | p :: ps, (_, c :: cs) =>
    if p.toLower = c.toLower then litMatchCI ps (some c, cs) else none

/-- The remainders for a greedy repetition whose run has length `n`
(longest first), keeping only lengths of at least `lo`. -/
def greedyRems (st : MState) (n lo : Nat) : List MState :=
  (((List.range (n + 1)).reverse).filter (fun k => lo ≤ k)).map (fun k => consumeK k st)

/-- The fuelled backtracking matcher: all remainders of matching the atom
sequence at the state, in regex priority order.  The fuel only bounds the
recursion depth (one unit per atom expanded along a path); `matcherFuel`
below is far larger than any pattern of this file needs, so on every
pattern that appears here the matcher computes the exact `re` semantics. -/
def matchF : Nat → List Atom → MState → List MState
  | _, [], st => [st]
  | 0, _ :: _, _ => []
  | f + 1, a :: as, st =>
    match a with
    | .lit s =>
      match litMatchCI s.data st with
      | some st' => matchF f as st'
      | none => []
    | .ws1 =>
      let n := runCount isPySpace st.2
      (greedyRems st n 1).flatMap (fun st' => matchF f as st')
    | .ws0 =>
      let n := runCount isPySpace st.2
      (greedyRems st n 0).flatMap (fun st' => matchF f as st')
    | .wsc =>
      match st.2 with
      | c :: cs => if isPySpace c then matchF f as (some c, cs) else []
      | [] => []
    | .opt xs => matchF f (xs ++ as) st ++ matchF f as st
    | .alts xss => xss.flatMap (fun xs => matchF f (xs ++ as) st)
    | .digits1 =>
      let n := runCount Char.isDigit st.2
      (greedyRems st n 1).flatMap (fun st' => matchF f as st')
    | .digitsR lo hi =>
      let n := min (runCount Char.isDigit st.2) hi
      (greedyRems st n lo).flatMap (fun st' => matchF f as st')
    | .word1 =>
      let n := runCount isWordChar st.2
      (greedyRems st n 1).flatMap (fun st' => matchF f as st')
    | .chIn s =>
      match st.2 with
      | c :: cs => if s.data.contains c then matchF f as (some c, cs) else []
      | [] => []
    | .dotStar =>
      let n := runCount (fun c => c ≠ '\n') st.2
      (greedyRems st n 0).flatMap (fun st' => matchF f as st')
    | .dotStarL =>
      let n := runCount (fun c => c ≠ '\n') st.2
      (((List.range (n + 1))).map (fun k => consumeK k st)).flatMap
        (fun st' => matchF f as st')
    | .bdry =>
      let pw := match st.1 with | some c => isWordChar c | none => false
      let nw := match st.2 with | c :: _ => isWordChar c | [] => false
      if pw ≠ nw then matchF f as st else []
    | .bos =>
      match st.1 with
      | none => matchF f as st
      | some _ => []
    | .eos =>
      match st.2 with
      | [] => matchF f as st
      | ['\n'] => matchF f as st
      | _ => []

/-- Fuel used everywhere; far larger than the depth any pattern here needs. -/
def matcherFuel : Nat := 300

/-- All remainders of the sequence at the given state. -/
def matchSeq (p : List Atom) (st : MState) : List MState := matchF matcherFuel p st

/-- Does a match start at this position or later?  (`re.search` scan.) -/
def searchFrom (p : List Atom) (pv : Option Char) : List Char → Bool
  | [] => !(matchSeq p (pv, [])).isEmpty
  | c :: cs => !(matchSeq p (pv, c :: cs)).isEmpty || searchFrom p (some c) cs

/-- Python `re.search(pattern, s) is not None`. -/
def reSearch (p : List Atom) (s : String) : Bool := searchFrom p none s.data

/-- Python `re.match(pattern, s) is not None` (anchored at the start). -/
def reMatchHead (p : List Atom) (s : String) : Bool :=
  !(matchSeq p (none, s.data)).isEmpty

/-- Does any of the terminator sequences match at the state? -/
def anyTermAt (terms : List (List Atom)) (st : MState) : Bool :=
  terms.any (fun t => !(matchSeq t st).isEmpty)

/-- Candidate capture lengths: 1..max for a lazy `(.+?)`, max..1 for a
greedy `(.+)`.  `dotAll` lets the capture cross newlines (re.DOTALL). -/
def capLens (lazyQ dotAll : Bool) (rest : List Char) : List Nat :=
  let maxK := if dotAll then rest.length else runCount (fun c => c ≠ '\n') rest
  let ks := (List.range maxK).map (· + 1)
  if lazyQ then ks else ks.reverse

/-- Try to capture `(.+?)`/`(.+)` at the state so that one of `terms`
matches right after the captured text. -/
def capHere (terms : List (List Atom)) (lazyQ dotAll : Bool) (st : MState) :
    Option (List Char) :=
  (capLens lazyQ dotAll st.2).findSome? (fun k =>
    if anyTermAt terms (consumeK k st) then some (st.2.take k) else none)

/-- Capture after a prefix pattern, trying the prefix's remainders in
priority order (regex backtracking). -/
def capAt (pre : List Atom) (terms : List (List Atom)) (lazyQ dotAll : Bool)
    (st : MState) : Option (List Char) :=
  (matchSeq pre st).findSome? (fun st' => capHere terms lazyQ dotAll st')

/-- Scan for the leftmost position where prefix-then-capture succeeds. -/
def searchCapFrom (pre : List Atom) (terms : List (List Atom))
    (lazyQ dotAll : Bool) (pv : Option Char) : List Char → Option (List Char)
  | [] => capAt pre terms lazyQ dotAll (pv, [])
  | c :: cs =>
    match capAt pre terms lazyQ dotAll (pv, c :: cs) with
    | some cap => some cap
    | none => searchCapFrom pre terms lazyQ dotAll (some c) cs

/-- `re.search(pre ++ "(.+?)" ++ alternation-of-terms, s)`'s group 1. -/
def reCap (pre : List Atom) (terms : List (List Atom)) (lazyQ dotAll : Bool)
    (s : String) : Option String :=
  (searchCapFrom pre terms lazyQ dotAll none s.data).map String.mk

/-- Two lazy captures: `pre (.+?) mid (.+?) terms`, group pair.  Group 1 may
not cross a newline (no DOTALL pattern of the source has two groups). -/
def cap2At (pre mid : List Atom) (terms : List (List Atom)) (st : MState) :
    Option (List Char × List Char) :=
  (matchSeq pre st).findSome? (fun st1 =>
    (capLens true false st1.2).findSome? (fun k1 =>
      (matchSeq mid (consumeK k1 st1)).findSome? (fun st2 =>
        (capHere terms true false st2).map (fun c2 => (st1.2.take k1, c2)))))

/-- Scan for the leftmost two-capture match. -/
def searchCap2From (pre mid : List Atom) (terms : List (List Atom))
    (pv : Option Char) : List Char → Option (List Char × List Char)
  | [] => cap2At pre mid terms (pv, [])
  | c :: cs =>
    match cap2At pre mid terms (pv, c :: cs) with
    | some r => some r
    | none => searchCap2From pre mid terms (some c) cs

/-- Both groups of `re.search(pre (.+?) mid (.+?) terms, s)`. -/
def reCap2 (pre mid : List Atom) (terms : List (List Atom)) (s : String) :
    Option (String × String) :=
  (searchCap2From pre mid terms none s.data).map (fun r => (String.mk r.1, String.mk r.2))

/-- Numeric value of a digit run. -/
def natOfDigits (l : List Char) : Nat :=
  l.foldl (fun a c => a * 10 + (c.toNat - 48)) 0

/-- Capture `(\d+)` right after the state (greedy digit run). -/
def digitsHere (st : MState) : Option Nat :=
  let n := runCount Char.isDigit st.2
  if n = 0 then none else some (natOfDigits (st.2.take n))

/-- Capture `(\d+)` after a prefix pattern. -/
def capDigitsAt (pre : List Atom) (st : MState) : Option Nat :=
  (matchSeq pre st).findSome? digitsHere

/-- Leftmost match of an alternation of `pre-i (\d+)` shapes, alternatives
tried in order at each position (the shape of TASK_ID_PATTERN). -/
def searchDigitsFrom (pres : List (List Atom)) (pv : Option Char) :
    List Char → Option Nat
  | [] => pres.findSome? (fun pre => capDigitsAt pre (pv, []))
  | c :: cs =>
    match pres.findSome? (fun pre => capDigitsAt pre (pv, c :: cs)) with
    | some v => some v
    | none => searchDigitsFrom pres (some c) cs

/-- Group of the first digit-capturing alternative to match. -/
def reDigits (pres : List (List Atom)) (s : String) : Option Nat :=
  searchDigitsFrom pres none s.data

/-- Leftmost match of an alternation, returning the matched text itself
(the date fallback pattern captures the whole alternation). -/
def matchedLenAt (alts : List (List Atom)) (st : MState) : Option Nat :=
  alts.findSome? (fun a =>
    match matchSeq a st with
    | st' :: _ => some (st.2.length - st'.2.length)
    | [] => none)

/-- Scan for the leftmost whole-match of an alternation. -/
def searchWholeFrom (alts : List (List Atom)) (pv : Option Char) :
    List Char → Option (List Char)
  | [] => (matchedLenAt alts (pv, [])).map (fun _ => [])
  | c :: cs =>
    match matchedLenAt alts (pv, c :: cs) with
    | some n => some ((c :: cs).take n)
    | none => searchWholeFrom alts (some c) cs

/-- `re.search(alt1|alt2|..., s)`'s matched text. -/
def reWhole (alts : List (List Atom)) (s : String) : Option String :=
  (searchWholeFrom alts none s.data).map String.mk

/-- `re.sub(p, "", s)` for a pattern anchored at the start (at most one
match, at position 0). -/
def reSubHead (p : List Atom) (s : String) : String :=
  match matchSeq p (none, s.data) with
  | st :: _ => String.mk st.2
  | [] => s

/-- `re.sub(p, "", s)`: remove every non-overlapping leftmost match,
continuing the scan where each match ended. -/
def subAllFrom (p : List Atom) : Nat → List Char → MState → List Char
  | 0, acc, st => acc.reverse ++ st.2
  | fuel + 1, acc, (pv, rest) =>
    match matchSeq p (pv, rest) with
    | st' :: _ =>
      if st'.2.length < rest.length then subAllFrom p fuel acc st'
      else
        match rest with
        | [] => acc.reverse
        | c :: cs => subAllFrom p fuel (c :: acc) (some c, cs)
    | [] =>
      match rest with
      | [] => acc.reverse
      | c :: cs => subAllFrom p fuel (c :: acc) (some c, cs)

/-- `re.sub(p, "", s)` for an unanchored pattern. -/
def reSubAll (p : List Atom) (s : String) : String :=
  String.mk (subAllFrom p (s.data.length + 1) [] (none, s.data))

/-- Python str.startswith. -/
def strStarts (s pre : String) : Bool := startsWithList s.data pre.data

/-- Python str.isdigit (nonempty, all digits). -/
def strIsDigit (s : String) : Bool := !s.data.isEmpty && s.data.all Char.isDigit

/-- Python `s.split(sep, 1)`: the pieces before and after the first
occurrence of `sep`, when it occurs. -/
def splitFirstList (l sep : List Char) : Option (List Char × List Char) :=
  match l with
  | [] => none
  | c :: cs =>
    if startsWithList l sep then some ([], l.drop sep.length)
    else (splitFirstList cs sep).map (fun r => (c :: r.1, r.2))

/-- `s.split(sep, 1)` on strings. -/
def strSplitFirst (s sep : String) : Option (String × String) :=
  (splitFirstList s.data sep.data).map (fun r => (String.mk r.1, String.mk r.2))

/-- Capture `(\w+)` after a prefix pattern, scanning leftmost. -/
def wordHere (st : MState) : Option String :=
  let n := runCount isWordChar st.2
  if n = 0 then none else some (String.mk (st.2.take n))

/-- Leftmost `pre (\w+)` capture. -/
def searchWordFrom (pre : List Atom) (pv : Option Char) : List Char → Option String
  | [] => (matchSeq pre (pv, [])).findSome? wordHere
  | c :: cs =>
    match (matchSeq pre (pv, c :: cs)).findSome? wordHere with
    | some w => some w
    | none => searchWordFrom pre (some c) cs

/-- `re.search(pre ++ "(\w+)", s)`'s group. -/
def reWordCap (pre : List Atom) (s : String) : Option String :=
  searchWordFrom pre none s.data

/-- Leftmost `pre (o1|o2|…)` capture where the group is an alternation of
literals: the first option matching at the leftmost eligible position. -/
def altCapAt (pre : List Atom) (opts : List String) (st : MState) : Option String :=
  (matchSeq pre st).findSome? (fun st' =>
    opts.find? (fun o => (litMatchCI o.data st').isSome))

/-- Scan for the leftmost `pre (o1|o2|…)` match. -/
def searchAltCapFrom (pre : List Atom) (opts : List String) (pv : Option Char) :
    List Char → Option String
  | [] => altCapAt pre opts (pv, [])
  | c :: cs =>
    match altCapAt pre opts (pv, c :: cs) with
    | some o => some o
    | none => searchAltCapFrom pre opts (some c) cs

/-- `re.search(pre ++ "(o1|o2|…)", s)`'s group. -/
def reAltCap (pre : List Atom) (opts : List String) (s : String) : Option String :=
  searchAltCapFrom pre opts none s.data

/-! ### Data model (intent_detector.py, routes/chat.py) -/

/-- A parameter value as the engine's Python dicts carry them. -/
inductive PVal where
  | s : String → PVal
  | b : Bool → PVal
  | num : Nat → PVal
  | null : PVal
  deriving DecidableEq, Repr

/-- A params mapping (Python dict with insertion order, unique keys). -/
abbrev Params := List (String × PVal)

/-- `d[k] = v` (overwrite in place or append). -/
def pset (ps : Params) (k : String) (v : PVal) : Params :=
  if ps.any (fun kv => kv.1 = k) then
    ps.map (fun kv => if kv.1 = k then (k, v) else kv)
  else ps ++ [(k, v)]

/-- `d.get(k)`. -/
def pget (ps : Params) (k : String) : Option PVal :=
  (ps.find? (fun kv => kv.1 = k)).map (fun kv => kv.2)

/-- `k in d`. -/
def phas (ps : Params) (k : String) : Bool := ps.any (fun kv => kv.1 = k)

/-- `d.get(k)` when the value is a string. -/
def pgetStr (ps : Params) (k : String) : Option String :=
  match pget ps k with
  | some (.s v) => some v
  | _ => none

/-- `d.get(k)` when the value is an integer. -/
def pgetNat (ps : Params) (k : String) : Option Nat :=
  match pget ps k with
  | some (.num v) => some v
  | _ => none

/-- One conversation turn as the engine reads it back (role, content). -/
structure ChatMsg where
  role : String
  content : String
  deriving DecidableEq, Repr

/-- intent_detector.Intent: the resolved interpretation of one user turn.
(The unused `confidence` float of the source class is omitted; nothing in
the engine reads it.) -/
structure Intent where
  operation : String
  task_id : Option Nat := none
  task_title : Option String := none
  params : Params := []
  needs_confirmation : Bool := false
  deriving DecidableEq, Repr

/-- Python `history[-n:]`. -/
def lastSlice (n : Nat) (h : List ChatMsg) : List ChatMsg := h.drop (h.length - n)

/-- The most recent assistant message among the last `n` turns (the
`for msg in reversed(history[-n:]): if role == 'assistant': …; break` shape). -/
def recentAssistant (n : Nat) (h : List ChatMsg) : Option ChatMsg :=
  ((lastSlice n h).reverse).find? (fun m => m.role = "assistant")

/-! ### intent_detector.py pattern tables -/

/-- TASK_ID_PATTERN alternatives, each ending in the digit group
(`task\s+#?(\d+)|#(\d+)|id\s+(\d+)`). -/
def taskIdPats : List (List Atom) :=
  [[.lit "task", .ws1, .opt [.lit "#"]], [.lit "#"], [.lit "id", .ws1]]

/-- UPDATE_PATTERNS. -/
def updatePatterns : List (List Atom) :=
  [ [.lit "update", .ws1, .opt [.lit "the", .ws1], .lit "task"],
    [.lit "change", .ws1, .opt [.lit "the", .ws1], .lit "task"],
    [.lit "edit", .ws1, .opt [.lit "the", .ws1], .lit "task"],
    [.lit "modify", .ws1, .opt [.lit "the", .ws1], .lit "task"],
    [.bos, .lit "update", .ws1, .word1, .dotStar, .ws1, .lit "to", .ws1] ]

/-- DELETE_PATTERNS. -/
def deletePatterns : List (List Atom) :=
  [ [.lit "delete", .ws1, .opt [.lit "the", .ws1], .lit "task"],
    [.lit "remove", .ws1, .opt [.lit "the", .ws1], .lit "task"],
    [.lit "khatam", .ws1, .alts [[.lit "karo"], [.lit "kar"], [.lit "do"]]] ]

/-- COMPLETE_PATTERNS. -/
def completePatterns : List (List Atom) :=
  [ [.lit "mark", .ws1, .opt [.lit "task", .ws1], .dotStarL, .ws1, .lit "as", .ws1,
     .alts [[.lit "done"], [.lit "complete"]]],
    [.lit "complete", .ws1, .lit "task"],
    [.lit "finish", .opt [.lit "ed"], .ws1, .lit "task"] ]

/-- INCOMPLETE_PATTERNS. -/
def incompletePatterns : List (List Atom) :=
  [ [.lit "mark", .ws1, .opt [.lit "task", .ws1], .dotStarL, .ws1, .lit "as", .ws1,
     .alts [[.lit "incomplete"], [.lit "not", .ws1, .lit "done"], [.lit "pending"], [.lit "undone"]]],
    [.lit "unmark", .ws1, .lit "task"],
    [.lit "uncomplete", .ws1, .lit "task"],
    [.lit "set", .ws1, .opt [.lit "task", .ws1], .dotStarL, .ws1, .lit "to", .ws1,
     .alts [[.lit "incomplete"], [.lit "pending"]]] ]

/-- ADD_PATTERNS. -/
def addPatterns : List (List Atom) :=
  [ [.lit "add", .ws1, .opt [.lit "a", .ws1], .opt [.lit "new", .ws1], .lit "task"],
    [.lit "create", .ws1, .opt [.lit "a", .ws1], .opt [.lit "new", .ws1], .lit "task"],
    [.lit "new", .ws1, .lit "task"],
    [.alts [[.lit "add"], [.lit "create"], [.lit "new"]], .ws1, .opt [.lit "a", .ws1],
     .opt [.lit "new", .ws1], .lit "task", .opt [.ws1, .dotStar]] ]

/-- LIST_PATTERNS. -/
def listPatterns : List (List Atom) :=
  [ [.alts [[.lit "show"], [.lit "list"], [.lit "display"]], .ws1, .opt [.lit "all", .ws1],
     .opt [.lit "my", .ws1], .lit "tasks"],
    [.alts [[.lit "show"], [.lit "list"], [.lit "display"]], .ws1, .opt [.lit "all", .ws1],
     .opt [.lit "my", .ws1], .lit "task", .ws1, .lit "list"],
    [.lit "what", .ws1, .lit "tasks", .ws1, .lit "do", .ws1, .lit "i", .ws1, .lit "have"],
    [.lit "view", .ws1, .opt [.lit "all", .ws1], .opt [.lit "my", .ws1], .lit "tasks"],
    [.lit "get", .ws1, .opt [.lit "all", .ws1], .opt [.lit "my", .ws1], .lit "tasks"],
    [.alts [[.lit "show"], [.lit "list"], [.lit "display"]], .ws1, .opt [.lit "all", .ws1],
     .opt [.lit "my", .ws1], .lit "task", .bdry],
    [.alts [[.lit "show"], [.lit "list"], [.lit "display"]], .ws1, .opt [.lit "all", .ws1],
     .opt [.lit "my", .ws1], .lit "task", .opt [.lit "s"], .opt [.ws1, .dotStar], .eos] ]

/-- PRIORITY_MAP (insertion order high, medium, low). -/
def priorityMap : List (String × List String) :=
  [ ("high", ["high", "urgent", "important", "critical", "asap", "zaruri"]),
    ("medium", ["medium", "normal", "regular"]),
    ("low", ["low", "minor", "trivial", "later", "someday"]) ]

/-- DATE_KEYWORDS. -/
def dateKeywords : List String :=
  [ "tomorrow", "today", "deadline", "due", "by", "until", "kal",
    "monday", "tuesday", "wednesday", "thursday", "friday", "saturday", "sunday",
    "next week", "next month" ]

/-- CONFIRM_YES. -/
def confirmYes : List String :=
  ["yes", "yeah", "yep", "sure", "ok", "okay", "haan", "han", "theek", "bilkul"]

/-- CONFIRM_NO. -/
def confirmNo : List String :=
  ["no", "nah", "nope", "cancel", "nahi", "na", "mat"]

/-- `_matches_any_pattern`. -/
def matchesAny (message : String) (pats : List (List Atom)) : Bool :=
  pats.any (fun p => reSearch p message)

/-- `_is_confirmation_response`: a message of at most 3 words that contains
one of the confirmation (or cancellation) keywords as a substring. -/
def isConfirmationResponse (messageLower : String) (confirm : Bool) : Bool :=
  let keywords := if confirm then confirmYes else confirmNo
  if wordCount messageLower ≤ 3 then containsAnyOf messageLower keywords else false

/-- `_extract_task_id` via TASK_ID_PATTERN. -/
def extractTaskId (message : String) : Option Nat := reDigits taskIdPats message

/-- `_get_context_task_id`: the most recent assistant message among the last
4 turns containing `task\s+#?(\d+)` (no break in the source loop, but only
assistant turns are read, most recent first). -/
def getContextTaskId (h : List ChatMsg) : Option Nat :=
  ((lastSlice 4 h).reverse).findSome? (fun m =>
    if m.role = "assistant" then
      reDigits [[.lit "task", .ws1, .opt [.lit "#"]]] m.content
    else none)

/-! ### Shared extraction patterns -/

/-- The remove-deadline phrasing (`remove\s+(?:the\s+)?(?:deadline|due\s+date|due_date)|no\s+(?:deadline|due\s+date)|cancel\s+(?:deadline|due\s+date)`). -/
def removeDeadlinePat : List Atom :=
  [.alts [
    [.lit "remove", .ws1, .opt [.lit "the", .ws1],
     .alts [[.lit "deadline"], [.lit "due", .ws1, .lit "date"], [.lit "due_date"]]],
    [.lit "no", .ws1, .alts [[.lit "deadline"], [.lit "due", .ws1, .lit "date"]]],
    [.lit "cancel", .ws1, .alts [[.lit "deadline"], [.lit "due", .ws1, .lit "date"]]]]]

/-- `\b(mark\s+)?(?:it\s+)?(?:as\s+)?(?:incomplete|pending|undone|not\s+done)\b`
(intent_detector.py lines 345 and 1129). -/
def incompleteFullPat : List Atom :=
  [.bdry, .opt [.lit "mark", .ws1], .opt [.lit "it", .ws1], .opt [.lit "as", .ws1],
   .alts [[.lit "incomplete"], [.lit "pending"], [.lit "undone"], [.lit "not", .ws1, .lit "done"]],
   .bdry]

/-- `\b(mark\s+)?(?:it\s+)?(?:as\s+)?complete(d)?\b|\bdone\b` (lines 347 and 1131). -/
def completeFullPat : List Atom :=
  [.alts [
    [.bdry, .opt [.lit "mark", .ws1], .opt [.lit "it", .ws1], .opt [.lit "as", .ws1],
     .lit "complete", .opt [.lit "d"], .bdry],
    [.bdry, .lit "done", .bdry]]]

/-- `\b(mark\s+)?(as\s+)?complete(d)?\b|\bdone\b` (line 630 variant). -/
def completeLoosePat : List Atom :=
  [.alts [
    [.bdry, .opt [.lit "mark", .ws1], .opt [.lit "as", .ws1],
     .lit "complete", .opt [.lit "d"], .bdry],
    [.bdry, .lit "done", .bdry]]]

/-- `\b(incomplete|pending|undone|not\s+done)\b` (line 632). -/
def incompleteLoosePat : List Atom :=
  [.bdry, .alts [[.lit "incomplete"], [.lit "pending"], [.lit "undone"], [.lit "not", .ws1, .lit "done"]],
   .bdry]

/-- The completion-flag extraction step used for update parameter
extraction (intent_detector.py lines 1129-1132 and 345-348): incomplete
phrasing wins only when the substring "complete" is absent from the text;
complete/done wins only when "incomplete" is absent. -/
def extractCompleted (messageLower : String) : Option Bool :=
  if reSearch incompleteFullPat messageLower && !strContains messageLower "complete" then
    some false
  else if reSearch completeFullPat messageLower && !strContains messageLower "incomplete" then
    some true
  else none

/-! ### `_check_pending_confirmation` (intent_detector.py lines 479-649) -/

/-- What a pending confirmation carries. -/
structure PendingConf where
  operation : String
  task_id : Option Nat
  task_title : Option String
  params : Params
  deriving DecidableEq, Repr

/-- The confirmation-question patterns scanned over the last assistant
turn's lowered text (lines 503-511). -/
def isAskingConfirmation (content : String) : Bool :=
  containsAnyOf content ["sure", "confirm", "certain"] ||
  (reSearch [.lit "kya", .dotStar, .lit "sure"] content || strContains content "pakka") ||
  containsAnyOf content ["should i", "shall i"] ||
  reSearch [.lit "delete", .dotStar, .lit "?"] content ||
  reSearch [.lit "update", .dotStar, .lit "?"] content ||
  reSearch [.lit "complete", .dotStar, .lit "?"] content ||
  reSearch [.lit "mark", .dotStar, .lit "?"] content

/-- Update-params extraction from the assistant's confirmation template
(lines 538-569); also re-extracts the task id from the template. -/
def pendingTemplateParams (content : String) (tid : Option Nat) : Params × Option Nat :=
  if strContains content "update task confirmation" || strContains content "changes to be made" then
    let tid := match reDigits [[.lit "task", .ws1, .lit "id:", .ws0, .lit "#"]] content with
      | some v => some v
      | none => tid
    let ps : Params := []
    let ps := match reCap [.lit "title:", .ws0, .lit "→", .ws0, .chIn "\"'"]
        [[.chIn "\"'"]] true false content with
      | some t => pset ps "title" (.s (pyStrip t))
      | none => ps
    let ps := match reWordCap [.lit "priority:", .ws0, .lit "→", .ws0] content with
      | some p =>
        let pv := lowerStr (pyStrip p)
        if pv = "high" || pv = "medium" || pv = "low" then pset ps "priority" (.s pv) else ps
      | none => ps
    let ps := match reCap [.lit "description:", .ws0, .lit "→", .ws0, .chIn "\"'"]
        [[.chIn "\"'"]] true false content with
      | some d => pset ps "description" (.s (pyStrip d))
      | none => ps
    let ps := match reCap [.lit "due", .ws1, .lit "date:", .ws0, .lit "→", .ws0]
        [[.lit "\n"], [.eos]] true false content with
      | some d =>
        let dv := pyStrip d
        if strContains (lowerStr dv) "(removed)" then pset ps "due_date" .null
        else pset ps "due_date" (.s dv)
      | none => ps
    (ps, tid)
  else ([], tid)

/-- One user turn of the fallback scan over previous messages
(lines 602-633): field patterns accumulated only for keys still absent. -/
def pendingGenericAccum (pc : String) (ps : Params) : Params :=
  let ps := if !phas ps "title" then
      match reCap [.lit "title", .ws0, .alts [[.lit "to"], [.lit ":"]], .ws0]
          [[.lit ","], [.eos]] true false pc with
      | some t => pset ps "title" (.s (pyStrip t))
      | none => ps
    else ps
  let ps := if !phas ps "priority" then
      match priorityMap.find? (fun lv =>
        containsAnyOf pc lv.2 ||
        reSearch [.lit "priority", .ws0, .alts [[.lit "to"], [.lit ":"]], .ws0, .lit lv.1] pc) with
      | some lv => pset ps "priority" (.s lv.1)
      | none => ps
    else ps
  let ps := if !phas ps "due_date" then
      if reSearch removeDeadlinePat pc then pset ps "due_date" .null
      else if containsAnyOf pc dateKeywords || strContains pc "due date" || strContains pc "deadline" then
        match reCap [.alts [[.lit "due", .ws1, .lit "date"], [.lit "deadline"]], .ws0,
            .opt [.alts [[.lit "to"], [.lit "is"], [.lit "as"], [.lit ":"]]], .ws0]
            [[.lit ","], [.eos]] true false pc with
        | some d => pset ps "due_date" (.s (pyStrip d))
        | none =>
          if strContains pc "tomorrow" then pset ps "due_date" (.s "tomorrow")
          else if strContains pc "today" then pset ps "due_date" (.s "today")
          else ps
      else ps
    else ps
  let ps := if !phas ps "description" then
      match reCap [.lit "description", .ws0, .alts [[.lit "to"], [.lit ":"]], .ws0]
          [[.lit ","], [.eos]] true false pc with
      | some d => pset ps "description" (.s (pyStrip d))
      | none => ps
    else ps
  let ps := if !phas ps "completed" then
      if reSearch completeLoosePat pc && !strContains pc "incomplete" then
        pset ps "completed" (.b true)
      else if reSearch incompleteLoosePat pc then pset ps "completed" (.b false)
      else ps
    else ps
  ps

/-- The fallback scan over `reversed(history[-6:])` user turns
(lines 571-633): the two update-phrase patterns stop the scan, the generic
field patterns accumulate and continue. -/
def pendingUpdateFallback : List ChatMsg → Params → Option String → Params × Option String
  | [], ps, tt => (ps, tt)
  | m :: rest, ps, tt =>
    if m.role = "user" then
      let pc := lowerStr m.content
      match reCap2 [.lit "update", .ws1, .opt [.lit "the", .ws1]]
          [.ws1, .lit "task", .ws1, .lit "to", .ws1]
          [[.eos], [.lit ","], [.ws1, .lit "with"], [.ws1, .lit "and"]] pc with
      | some g =>
        let ps := pset ps "title" (.s (pyStrip g.2))
        let tt := match tt with
          | some t => some t
          | none => some (reSubHead [.alts [[.lit "the"], [.lit "a"], [.lit "an"]], .ws1]
              (pyStrip g.1))
        (ps, tt)
      | none =>
        match reCap2 [.lit "update", .ws1, .opt [.lit "the", .ws1], .lit "task", .ws1]
            [.ws1, .lit "title", .ws1, .lit "to", .ws1]
            [[.eos], [.lit ","], [.ws1, .lit "with"], [.ws1, .lit "and"]] pc with
        | some g =>
          let tt := match tt with
            | some t => some t
            | none => some (pyStrip g.1)
          (pset ps "title" (.s (pyStrip g.2)), tt)
        | none => pendingUpdateFallback rest (pendingGenericAccum pc ps) tt
    else pendingUpdateFallback rest ps tt

/-- `_check_pending_confirmation`: scan the most recent assistant turn of the
last 4 for confirmation-question phrasing and reconstruct the pending
operation, target and (for updates) parameters. -/
def checkPendingConfirmation (h : List ChatMsg) : Option PendingConf :=
  match recentAssistant 4 h with
  | none => none
  | some m =>
    let content := lowerStr m.content
    if isAskingConfirmation content then
      let tid := reDigits [[.lit "task", .ws1, .opt [.lit "#"]]] content
      let tt := (reCap [.lit "task", .ws1, .chIn "\"'"] [[.chIn "\"'"]] true false content).map
        pyStrip
      if strContains content "delete" || strContains content "remove" then
        some { operation := "delete", task_id := tid, task_title := tt, params := [] }
      else if strContains content "update" || strContains content "change" ||
          strContains content "edit" then
        let (ps, tid') := pendingTemplateParams content tid
        let (ps', tt') :=
          if ps.isEmpty then pendingUpdateFallback ((lastSlice 6 h).reverse) ps tt
          else (ps, tt)
        some { operation := "update", task_id := tid', task_title := tt', params := ps' }
      else if strContains content "incomplete" || strContains content "not done" ||
          strContains content "pending" || strContains content "undone" then
        some { operation := "incomplete", task_id := tid, task_title := tt, params := [] }
      else if strContains content "complete" || strContains content "mark" ||
          strContains content "done" then
        some { operation := "complete", task_id := tid, task_title := tt, params := [] }
      else none
    else none

/-! ### `_check_follow_up_response` (intent_detector.py lines 234-476) -/

/-- Phrases that mean the assistant asked what fields to update (lines 262-273). -/
def updateFieldsPatterns : List String :=
  [ "what do you want to update", "what would you like to update",
    "tell me what you want to change", "you can update", "you can reply like",
    "kya update karna hai", "kya update kerna hai", "mein kya update",
    "what changes", "which changes" ]

/-- Phrases that mean the assistant asked for the new task's title (lines 361-368). -/
def addTitlePatterns : List String :=
  [ "what's the title", "what is the title", "task title", "title of the task",
    "title you'd like to add", "title you would like to add" ]

/-- Phrases that mean the assistant asked which task (lines 415-420). -/
def askingPatterns : List String :=
  [ "which task", "specify which task", "specify the task", "task you want",
    "task you would like", "task to", "provide the name", "mention the task",
    "task number", "kaunsa task", "konsa task", "task batao" ]

/-- Detail keywords for the has-details test (lines 281-287). -/
def followUpDetailKeywords : List String :=
  [ "title", "priority", "deadline", "due date", "due_date", "description",
    "remove", "no deadline", "cancel deadline", "complete", "completed",
    "incomplete", "pending", "undone", "tomorrow", "today", "next" ]

/-- ADD_COMMAND_PHRASES (lines 391-395). -/
def addCommandPhrases : List String :=
  [ "add task", "create task", "new task", "add a task", "create a task",
    "new a task", "add new task", "create new task" ]

/-- OTHER_COMMAND_PHRASES (lines 396-400). -/
def otherCommandPhrases : List String :=
  [ "delete task", "delete the task", "remove task", "remove the task",
    "update task", "update the task", "show all tasks", "show task list",
    "list tasks", "list my tasks", "mark complete", "mark as complete" ]

/-- Update-detail extraction for the what-to-update follow-up (lines 304-348). -/
def caseAParams (messageLower : String) : Params :=
  let ps : Params := []
  let ps := match reCap [.lit "title", .ws0, .alts [[.lit "to"], [.lit ":"]], .ws0]
      [[.lit ","], [.ws1, .lit "and"], [.lit "priority"], [.lit "deadline"],
       [.lit "due", .ws1, .lit "date"], [.lit "description"], [.lit "mark"],
       [.lit "incomplete"], [.lit "complete"], [.eos]] true false messageLower with
    | some t => pset ps "title" (.s (pyStrip t))
    | none => ps
  let ps := match reAltCap [.lit "priority", .ws0, .alts [[.lit "to"], [.lit ":"]], .ws0]
      ["high", "medium", "low"] messageLower with
    | some p => pset ps "priority" (.s p)
    | none =>
      match priorityMap.find? (fun lv => containsAnyOf messageLower lv.2) with
      | some lv => pset ps "priority" (.s lv.1)
      | none => ps
  let ps :=
    if reSearch removeDeadlinePat messageLower then pset ps "due_date" .null
    else
      match reCap [.alts [[.lit "update"], [.lit "set"], [.lit "change"]], .ws1,
          .opt [.lit "the", .ws1], .lit "due", .ws1, .lit "date", .ws1, .lit "to", .ws1]
          [[.lit ","], [.ws1, .lit "and"], [.lit "description"], [.lit "title"],
           [.lit "priority"], [.lit "mark"], [.eos]] true false messageLower with
      | some d =>
        let dv := reSubAll [.ws1, .alts [[.lit "and"], [.lit "mark"], [.lit "description"],
            [.lit "title"], [.lit "priority"], [.lit "incomplete"], [.lit "complete"]],
            .dotStar, .eos] (pyStrip d)
        pset ps "due_date" (.s dv)
      | none =>
        if strContains messageLower "tomorrow" then pset ps "due_date" (.s "tomorrow")
        else if strContains messageLower "today" then pset ps "due_date" (.s "today")
        else ps
  let ps := match reCap [.lit "description", .opt [.lit ":"], .ws1]
      [[.lit ","], [.ws1, .lit "and"], [.lit "title"], [.lit "priority"], [.lit "deadline"],
       [.lit "due", .ws1, .lit "date"], [.lit "mark"], [.lit "incomplete"], [.lit "complete"],
       [.eos]] true false messageLower with
    | some d =>
      let dv := reSubAll [.ws1, .alts [[.lit "and"], [.lit "mark"], [.lit "incomplete"],
          [.lit "complete"], [.lit "title"], [.lit "priority"], [.lit "deadline"],
          [.lit "due", .ws1, .lit "date"]], .dotStar, .eos] (pyStrip d)
      if dv.isEmpty then ps else pset ps "description" (.s dv)
    | none => ps
  let ps := match extractCompleted messageLower with
    | some b => pset ps "completed" (.b b)
    | none => ps
  ps

/-- The title cleanup of the add-title follow-up (lines 384-388). -/
def caseBTitle (message : String) : String :=
  let tt := pyStrip message
  let tt := reSubHead [.opt [.lit "the", .ws1], .lit "title", .ws1, .lit "of", .ws1,
    .lit "the", .ws1, .lit "task", .ws1, .lit "is", .ws1] tt
  let tt := reSubHead [.opt [.lit "the", .ws1], .lit "title", .ws1, .lit "is", .ws1] tt
  let tt := reSubHead [.alts [[.lit "task", .ws1, .lit "title", .ws1, .lit "is"],
    [.lit "task", .ws1, .lit "title:"], [.lit "title:"], [.lit "it", .ws1, .lit "is"],
    [.lit "it's"]], .ws1] tt
  pyStrip tt

/-- The operation the assistant's which-task question names (lines 426-434). -/
def followUpAskingOp (am : String) : Option String :=
  if strContains am "update" || strContains am "change" then some "update_ask"
  else if strContains am "delete" || strContains am "remove" then some "delete"
  else if strContains am "complete" && !strContains am "incomplete" then some "complete"
  else if strContains am "incomplete" || strContains am "not done" ||
      strContains am "pending" then some "incomplete"
  else none

/-- The which-task follow-up branch (lines 414-473): the user's message is
consumed as the task title after prefix/suffix cleanup. -/
def askingBranch (message am : String) : Option Intent :=
  if containsAnyOf am askingPatterns then
    match followUpAskingOp am with
    | none => none
    | some op =>
      let tt := pyStrip message
      let tt := reSubHead [.alts [[.lit "the"], [.lit "a"], [.lit "an"], [.lit "update"],
        [.lit "delete"], [.lit "remove"], [.lit "complete"], [.lit "mark"]], .ws1] tt
      let tt := reSubAll [.ws1, .alts [[.lit "task"], [.lit "ko", .ws1, .lit "update"],
        [.lit "ko", .ws1, .lit "delete"], [.lit "wala"]], .dotStar, .eos] tt
      if 2 ≤ tt.length && !strIsDigit tt then
        if op = "update_ask" then
          some { operation := "update_ask", task_title := some tt, needs_confirmation := true }
        else if op = "incomplete" then
          some { operation := "incomplete", task_title := some tt,
                 params := [("completed", .b false)], needs_confirmation := true }
        else
          some { operation := op, task_title := some tt, needs_confirmation := true }
      else none
  else none

/-- `_check_follow_up_response`: react to the most recent assistant turn of
the last 3 when it was a clarification question. -/
def checkFollowUpResponse (message messageLower : String) (h : List ChatMsg) : Option Intent :=
  match recentAssistant 3 h with
  | none => none
  | some m =>
    let am := lowerStr m.content
    let caseATid : Option Nat :=
      if containsAnyOf am updateFieldsPatterns then
        let normalizedLower := replaceBullet messageLower
        let hasDetails := containsAnyOf messageLower followUpDetailKeywords ||
          strContains normalizedLower "title to" || strContains normalizedLower "priority to" ||
          (strContains normalizedLower "due date" || strContains normalizedLower "due date to")
        if hasDetails then
          match getContextTaskId h with
          | some v => some v
          | none => reDigits [[.lit "#"]] am
        else none
      else none
    match caseATid with
    | some t =>
      some { operation := "update", task_id := some t, task_title := none,
             params := caseAParams messageLower, needs_confirmation := true }
    | none =>
      if containsAnyOf am addTitlePatterns then
        if matchesAny message deletePatterns then none
        else if matchesAny message updatePatterns then none
        else if matchesAny message listPatterns then none
        else
          let tt := caseBTitle message
          if 2 ≤ tt.length then
            if addCommandPhrases.contains (lowerStr tt) ||
                otherCommandPhrases.contains (lowerStr tt) then none
            else some { operation := "add", params := [("title", .s tt)],
                        needs_confirmation := false }
          else askingBranch message am
      else askingBranch message am

/-! ### `_extract_task_title` (intent_detector.py lines 671-760) -/

/-- The lookahead terminators of title pattern 1 and pattern 4a. -/
def titleTerm1 : List (List Atom) :=
  [[.ws1, .alts [
     [.lit "to", .ws1, .alts [[.lit "update"], [.lit "set"], [.lit "change"]]],
     [.lit "title", .ws1, .lit "to"],
     [.lit "priority", .ws1, .lit "to"],
     [.lit "deadline"], [.lit "description"], [.lit "update"], [.lit "delete"],
     [.lit "complete"], [.lit "mark"], [.eos]]]]

/-- Terminators of title pattern 4b (pattern 1's plus the as-complete forms). -/
def titleTerm4b : List (List Atom) :=
  [[.ws1, .alts [
     [.lit "to", .ws1, .alts [[.lit "update"], [.lit "set"], [.lit "change"]]],
     [.lit "title", .ws1, .lit "to"],
     [.lit "priority", .ws1, .lit "to"],
     [.lit "deadline"], [.lit "description"], [.lit "update"], [.lit "delete"],
     [.lit "complete"], [.lit "mark"],
     [.lit "as", .ws1, .lit "complete"], [.lit "as", .ws1, .lit "incomplete"], [.eos]]]]

/-- The trailing-keyword cleanup of pattern 1/4a (line 694). -/
def titleClean1 (t : String) : String :=
  reSubAll [.ws1, .alts [
    [.lit "to", .ws1, .alts [[.lit "update"], [.lit "set"], [.lit "change"]]],
    [.lit "title", .ws1, .lit "to"],
    [.lit "priority", .ws1, .lit "to"],
    [.lit "deadline"], [.lit "description"], [.lit "update"], [.lit "delete"],
    [.lit "complete"], [.lit "mark"]], .ws1, .dotStar, .eos] t

/-- Drop a leading "the " (lines 696-697). -/
def dropLeadingThe (t : String) : String :=
  if strStarts (lowerStr t) "the " then pyStrip (String.mk (t.data.drop 4)) else t

/-- Title pattern 1: `the\s+task:?\s+(.+?)(?=…)` with DOTALL (lines 686-700). -/
def extractTitleP1 (ml : String) : Option String :=
  match reCap [.lit "the", .ws1, .lit "task", .opt [.lit ":"], .ws1] titleTerm1 true true ml with
  | none => none
  | some t =>
    let t := dropLeadingThe (titleClean1 (pyStrip t))
    if 2 < t.length && lowerStr t ≠ "the" then some t else none

/-- Title pattern 2: `the\s+(.+?)\s+task` (lines 703-707). -/
def extractTitleP2 (ml : String) : Option String :=
  match reCap [.lit "the", .ws1] [[.ws1, .lit "task"]] true false ml with
  | none => none
  | some t =>
    let t := pyStrip t
    if 2 < t.length && lowerStr t ≠ "the" then some t else none

/-- Title pattern 3: `task:?\s+(.+?)(?:\s+to\s+|\s+title\s+to\s+|$|update|delete|priority|deadline|description)` (lines 710-718). -/
def extractTitleP3 (ml : String) : Option String :=
  match reCap [.lit "task", .opt [.lit ":"], .ws1]
      [[.ws1, .lit "to", .ws1], [.ws1, .lit "title", .ws1, .lit "to", .ws1], [.eos],
       [.lit "update"], [.lit "delete"], [.lit "priority"], [.lit "deadline"],
       [.lit "description"]] true false ml with
  | none => none
  | some t =>
    let t := pyStrip t
    let t := reSubHead [.alts [[.lit "the"], [.lit "a"], [.lit "an"]], .ws1] t
    let t := reSubAll [.ws1, .alts [[.lit "to"], [.lit "with"], [.lit "and"], [.lit "title"],
      [.lit "priority"], [.lit "deadline"], [.lit "description"], [.lit "update"],
      [.lit "delete"]], .wsc, .dotStar] t
    if 2 < t.length && !strIsDigit t then some t else none

/-- Title pattern 4a: `{op}\s+the\s+task\s+(.+?)(?=…)` DOTALL (lines 726-738). -/
def extractTitleP4a (op : String) (ml : String) : Option String :=
  match reCap [.lit op, .ws1, .lit "the", .ws1, .lit "task", .ws1] titleTerm1 true true ml with
  | none => none
  | some t =>
    let t := dropLeadingThe (pyStrip t)
    if 2 < t.length && lowerStr t ≠ "the" && !strIsDigit t then some t else none

/-- Title pattern 4b: `{op}\s+(?:the\s+)?(.+?)(?=…)` DOTALL (lines 743-758). -/
def extractTitleP4b (op : String) (ml : String) : Option String :=
  match reCap [.lit op, .ws1, .opt [.lit "the", .ws1]] titleTerm4b true true ml with
  | none => none
  | some t =>
    let t := pyStrip t
    let t := reSubHead [.alts [[.lit "the"], [.lit "a"], [.lit "an"]], .ws1] t
    let t := reSubAll [.ws1, .alts [[.lit "to"], [.lit "with"], [.lit "and"], [.lit "title"],
      [.lit "priority"], [.lit "deadline"], [.lit "description"], [.lit "update"],
      [.lit "delete"], [.lit "complete"], [.lit "mark"], [.lit "task"]], .ws1, .dotStar, .eos] t
    let t := reSubAll [.ws1, .lit "task", .ws0, .eos] t
    if 2 ≤ t.length && !strIsDigit t &&
        !(["the", "a", "an"].contains (lowerStr t)) then some t else none

/-- The pattern-4 loop over operations (lines 722-758). -/
def extractTitleP4 : List String → String → Option String
  | [], _ => none
  | op :: rest, ml =>
    if strContains ml op then
      match extractTitleP4a op ml with
      | some t => some t
      | none =>
        match extractTitleP4b op ml with
        | some t => some t
        | none => extractTitleP4 rest ml
    else extractTitleP4 rest ml

/-- `_extract_task_title`: the ordered cascade of title phrasings. -/
def extractTaskTitle (_message messageLower : String) : Option String :=
  match extractTitleP1 messageLower with
  | some t => some t
  | none =>
    match extractTitleP2 messageLower with
    | some t => some t
    | none =>
      match extractTitleP3 messageLower with
      | some t => some t
      | none => extractTitleP4 ["update", "delete", "remove", "complete", "mark"] messageLower

/-! ### `_detect_update_intent` (intent_detector.py lines 814-1146) -/

/-- Terminators of the `update X to Y` patterns (lines 850, 864, 890). -/
def updToTerms : List (List Atom) :=
  [[.lit ","],
   [.ws1, .alts [[.lit "with"], [.lit "and"], [.lit "priority"], [.lit "deadline"],
     [.lit "description"], [.lit "low"], [.lit "medium"], [.lit "high"]]],
   [.ws0, .eos]]

/-- The `update X to Y` extraction (lines 846-903): old title and new title. -/
def updateXtoY (ml : String) : Option (String × String) :=
  match reCap2 [.lit "update", .ws1, .lit "the", .ws1, .lit "task", .ws1]
      [.ws1, .lit "to", .ws1] updToTerms ml with
  | some g =>
    some (reSubHead [.alts [[.lit "the"], [.lit "a"], [.lit "an"]], .ws1] (pyStrip g.1),
      pyStrip g.2)
  | none =>
    match reCap2 [.lit "update", .ws1] [.ws1, .lit "task", .ws1, .lit "to", .ws1]
        updToTerms ml with
    | some g =>
      some (reSubHead [.alts [[.lit "the"], [.lit "a"], [.lit "an"]], .ws1] (pyStrip g.1),
        pyStrip g.2)
    | none =>
      if strStarts ml "update " then
        let rest := String.mk (ml.data.drop 7)
        match strSplitFirst rest " to " with
        | none => none
        | some (p1, p2) =>
          let potentialTitle := pyStrip p1
          let rest2 := pyStrip p2
          match capHere updToTerms true false (none, rest2.data) with
          | none => none
          | some nt =>
            let potentialNew := pyStrip (String.mk nt)
            if !(["it", "this", "that"].contains potentialTitle) &&
                2 ≤ potentialTitle.length && 2 ≤ potentialNew.length then
              some (reSubHead [.alts [[.lit "the"], [.lit "a"], [.lit "an"]], .ws1]
                potentialTitle, potentialNew)
            else none
      else none

/-- The has-update-details test (lines 1011-1026); the source lists several
clauses twice inside one `any([...])`, which is logically the same as one
copy of each, and two clauses whose doubled backslashes make them search for
a literal backslash. -/
def hasUpdateDetails (newTitleFromPattern : Option String) (ml : String) : Bool :=
  newTitleFromPattern.isSome ||
  strContains ml "priority" ||
  (strContains ml "deadline" || strContains ml "due date" || strContains ml "due_date") ||
  strContains ml "description" ||
  (strContains ml "title" && (strContains ml "to" || strContains ml ":")) ||
  reSearch [.lit "\\bchange\\b", .dotStar, .lit "\\btitle\\b"] ml ||
  reSearch [.lit "\\bset\\b", .dotStar, .lit "\\bpriority\\b"] ml ||
  (strContains ml "remove" && (strContains ml "deadline" || strContains ml "due date"))

/-- The follow-up context task lookup of the update detector
(lines 917-945): the previous assistant turn asked for the task. -/
def updateFollowUpTitle (message ml : String) (h : List ChatMsg) : Option String :=
  match recentAssistant 3 h with
  | none => none
  | some m =>
    let la := lowerStr m.content
    if containsAnyOf la ["which task", "task name", "task you want", "task to update",
        "provide the name", "mention the task", "task number", "kaunsa task",
        "wala task", "task update kerna"] then
      match reCap [] [[.ws1, .alts [[.lit "wala"], [.lit "walay"], [.lit "ka"], [.lit "ki"],
          [.lit "ko"], [.lit "task"], [.lit "update"], [.lit "kerna"], [.lit "hai"]]]]
          true false ml with
      | some t =>
        let t := reSubHead [.alts [[.lit "the"], [.lit "a"], [.lit "an"], [.lit "update"]],
          .ws1] (pyStrip t)
        if 2 ≤ t.length && !strIsDigit t then some t else none
      | none =>
        let t := pyStrip message
        let t := reSubHead [.alts [[.lit "the"], [.lit "a"], [.lit "an"], [.lit "update"]],
          .ws1] t
        let t := reSubAll [.ws1, .alts [[.lit "wala"], [.lit "walay"], [.lit "task"],
          [.lit "update"], [.lit "kerna"], [.lit "hai"]], .dotStar, .eos] t
        if 2 ≤ t.length && !strIsDigit t then some t else none
    else none

/-- A reference `task 'title'` or `task #id`, whichever alternative matches
at the leftmost position (the alternation of line 966, quoted form first at
each position). -/
def taskRefAt (st : MState) : Option (String ⊕ Nat) :=
  match capAt [.lit "task", .ws1, .chIn "\"'"] [[.chIn "\"'"]] true false st with
  | some t => some (.inl (String.mk t))
  | none => (capDigitsAt [.lit "task", .ws1, .opt [.lit "#"]] st).map .inr

/-- Leftmost scan for `task\s+['\"](.+?)['\"]|task\s+#?(\d+)`. -/
def taskRefFrom (pv : Option Char) : List Char → Option (String ⊕ Nat)
  | [] => taskRefAt (pv, [])
  | c :: cs =>
    match taskRefAt (pv, c :: cs) with
    | some r => some r
    | none => taskRefFrom (some c) cs

/-- The history scan of the update detector (lines 948-988): task mentions
in the last 10 turns, most recent first; a matched pattern stops the scan,
a failed validity condition falls through to the next pattern of the same
turn, then to the next older turn. -/
def updateHistoryScan : List ChatMsg → Option String × Option Nat
  | [] => (none, none)
  | m :: rest =>
    let content := lowerStr m.content
    let p1 : Option String :=
      match reCap [.alts [[.lit "update"], [.lit "want", .ws1, .lit "to", .ws1, .lit "update"],
          [.lit "updateing"]], .ws1, .opt [.lit "the", .ws1], .lit "task", .opt [.lit ":"], .ws1]
          [[.ws1, .lit "update"], [.ws1, .lit "title"], [.ws1, .lit "priority"],
           [.ws1, .lit "deadline"], [.eos]] true true content with
      | some t =>
        let t := reSubHead [.alts [[.lit "the"], [.lit "a"], [.lit "an"]], .ws1] (pyStrip t)
        if 2 < t.length && lowerStr t ≠ "the" then some t else none
      | none => none
    match p1 with
    | some t => (some t, none)
    | none =>
      if m.role = "assistant" then
        match taskRefFrom none content.data with
        | some (.inl t) => (some (pyStrip t), none)
        | some (.inr v) => (none, some v)
        | none =>
          match reCap [.lit "task", .ws1, .chIn "\"'"] [[.chIn "\"'"]] true false content with
          | some t =>
            let t := pyStrip t
            if 2 < t.length then (some t, none) else updateHistoryScan rest
          | none => updateHistoryScan rest
      else updateHistoryScan rest

/-- Terminators of the explicit new-title patterns (lines 1044-1049). -/
def updTitleTerms : List (List Atom) :=
  [[.lit ","], [.ws1, .lit "with"], [.ws1, .lit "and"], [.eos],
   [.lit "priority"], [.lit "deadline"], [.lit "description"]]

/-- The explicit new-title patterns tried in order (lines 1041-1058). -/
def updTitlePats : List (List Atom × List (List Atom)) :=
  [ ([.alts [[.lit "change"], [.lit "update"], [.lit "set"]], .ws1, .opt [.lit "the", .ws1],
      .lit "title", .ws0, .alts [[.lit "to"], [.lit ":"]], .ws0], updTitleTerms),
    ([.alts [[.lit "change"], [.lit "update"]], .ws1,
      .alts [[.lit "it", .ws1, .lit "to"], [.lit "to"]], .ws1], updTitleTerms),
    ([.lit "title", .ws0, .alts [[.lit "to"], [.lit ":"]], .ws0], updTitleTerms),
    ([.lit "update", .ws1, .lit "the", .ws1, .lit "title", .opt [.lit ":"], .ws0],
      updTitleTerms) ]

/-- One pass of the new-title pattern loop: first pattern whose cleaned
capture is longer than one character wins. -/
def updExtractTitle : List (List Atom × List (List Atom)) → String → Option String
  | [], _ => none
  | (pre, terms) :: rest, ml =>
    match reCap pre terms true false ml with
    | some t =>
      let t := reSubAll [.ws1, .alts [[.lit "priority"], [.lit "deadline"],
        [.lit "description"], [.lit "and"], [.lit "with"], [.lit "update"], [.lit "delete"],
        [.lit "complete"], [.lit "mark"]], .dotStar, .eos] (pyStrip t)
      if 1 < t.length then some t else updExtractTitle rest ml
    | none => updExtractTitle rest ml

/-- The explicit priority patterns (lines 1061-1065), tried in order. -/
def updExtractPriority (ml : String) : Option String :=
  match reAltCap [.lit "priority", .ws0, .alts [[.lit "to"], [.lit ":"]], .ws0]
      ["high", "medium", "low"] ml with
  | some p => some p
  | none =>
    match reAltCap [.lit "set", .ws1, .lit "priority", .ws0, .alts [[.lit "to"], [.lit ":"]],
        .ws0] ["high", "medium", "low"] ml with
    | some p => some p
    | none =>
      reAltCap [.lit "priority", .ws1, .alts [[.lit "is"], [.lit "as"]], .ws1]
        ["high", "medium", "low"] ml

/-- Terminators of the deadline patterns (lines 1088-1093). -/
def updDeadlineTerms : List (List Atom) :=
  [[.lit ","], [.ws1, .lit "and"], [.lit "description"], [.lit "title"], [.lit "priority"],
   [.lit "mark"], [.eos]]

/-- The deadline extraction patterns tried in order (lines 1088-1102). -/
def updDeadlinePats : List (List Atom) :=
  [ [.alts [[.lit "update"], [.lit "set"], [.lit "change"]], .ws1, .opt [.lit "the", .ws1],
     .lit "due", .ws1, .lit "date", .ws1, .lit "to", .ws1],
    [.alts [[.lit "update"], [.lit "set"], [.lit "change"]], .ws1, .opt [.lit "the", .ws1],
     .lit "deadline", .ws1, .lit "to", .ws1],
    [.lit "due", .ws1, .lit "date", .ws1, .alts [[.lit "to"], [.lit "is"], [.lit "as"],
     [.lit "for"]], .ws1],
    [.lit "deadline", .ws1, .alts [[.lit "to"], [.lit "is"], [.lit "as"], [.lit "for"]],
     .ws1] ]

/-- First deadline pattern with a nonempty cleaned capture (lines 1094-1102). -/
def updExtractDeadline : List (List Atom) → String → Option String
  | [], _ => none
  | pre :: rest, ml =>
    match reCap pre updDeadlineTerms true false ml with
    | some d =>
      let d := reSubAll [.ws1, .alts [[.lit "and"], [.lit "mark"], [.lit "description"],
        [.lit "title"], [.lit "priority"], [.lit "incomplete"], [.lit "complete"]],
        .dotStar, .eos] (pyStrip d)
      if d.isEmpty then updExtractDeadline rest ml else some d
    | none => updExtractDeadline rest ml

/-- The date-like fallback alternation (line 1110). -/
def dateLikeAlts : List (List Atom) :=
  [ [.digitsR 1 2, .chIn "/-", .digitsR 1 2, .chIn "/-", .digitsR 2 4],
    [.word1, .ws1, .digitsR 1 2, .opt [.lit ","], .ws1, .digitsR 4 4],
    [.digitsR 1 2, .ws1, .word1, .ws1, .digitsR 4 4] ]

/-- The update-parameter extraction once details are present
(lines 1039-1132), starting from the params holding any `update X to Y`
new title. -/
def updateDetailParams (ml : String) (ps0 : Params) : Params :=
  let ps := ps0
  let ps := if !phas ps "title" then
      match updExtractTitle updTitlePats ml with
      | some t => pset ps "title" (.s t)
      | none => ps
    else ps
  let ps := match updExtractPriority ml with
    | some p => pset ps "priority" (.s p)
    | none =>
      match priorityMap.find? (fun lv => containsAnyOf ml lv.2) with
      | some lv => pset ps "priority" (.s lv.1)
      | none => ps
  let ps :=
    if reSearch removeDeadlinePat ml then pset ps "due_date" .null
    else if containsAnyOf ml dateKeywords || strContains ml "due date" ||
        strContains ml "deadline" then
      let ps := match updExtractDeadline updDeadlinePats ml with
        | some d => pset ps "due_date" (.s d)
        | none => ps
      if !phas ps "due_date" then
        let ps := if strContains ml "tomorrow" then pset ps "due_date" (.s "tomorrow")
          else if strContains ml "today" then pset ps "due_date" (.s "today")
          else ps
        match reWhole dateLikeAlts ml with
        | some d => pset ps "due_date" (.s (pyStrip d))
        | none => ps
      else ps
    else ps
  let ps := match reCap [.lit "description", .opt [.lit ":"], .ws1]
      [[.lit ","], [.ws1, .lit "and"], [.lit "title"], [.lit "priority"], [.lit "deadline"],
       [.lit "due", .ws1, .lit "date"], [.lit "mark"], [.lit "incomplete"], [.lit "complete"],
       [.eos]] true false ml with
    | some d =>
      let dv := reSubAll [.ws1, .alts [[.lit "and"], [.lit "mark"], [.lit "incomplete"],
          [.lit "complete"], [.lit "title"], [.lit "priority"], [.lit "deadline"],
          [.lit "due", .ws1, .lit "date"]], .dotStar, .eos] (pyStrip d)
      if dv.isEmpty then ps else pset ps "description" (.s dv)
    | none => ps
  let ps := if !phas ps "completed" then
      match extractCompleted ml with
      | some b => pset ps "completed" (.b b)
      | none => ps
    else ps
  ps

/-- `_detect_update_intent`: the source always returns an Intent (the
Optional return type of the Python signature is never used). -/
def detectUpdateIntent (message messageLower0 : String) (h : List ChatMsg) : Intent :=
  let ml := replaceBullet messageLower0
  if reMatchHead [.lit "update", .ws1, .opt [.lit "the", .ws1], .lit "task", .ws0,
      .opt [.chIn ".!?"], .ws0, .eos] (pyStrip ml) then
    { operation := "update_ask", needs_confirmation := true }
  else
    let tid := extractTaskId message
    let xy := if tid.isNone then updateXtoY ml else none
    let newTitle := xy.map (fun g => g.2)
    let tt0 := xy.map (fun g => g.1)
    let tt1 := if tid.isNone && tt0.isNone then extractTaskTitle message ml else tt0
    let (tt2, tid2) :=
      if tid.isNone && tt1.isNone then
        match updateFollowUpTitle message ml h with
        | some t => (some t, tid)
        | none =>
          match updateHistoryScan ((lastSlice 10 h).reverse) with
          | (some t, _) => (some t, tid)
          | (none, some v) => (none, some v)
          | (none, none) => (none, tid)
      else (tt1, tid)
    if tid2.isNone && tt2.isNone then
      { operation := "update_ask", needs_confirmation := true }
    else
      let ps0 : Params := match newTitle with
        | some t => [("title", .s t)]
        | none => []
      if !hasUpdateDetails newTitle ml then
        { operation := "update_ask", task_id := tid2, task_title := tt2,
          needs_confirmation := true }
      else
        { operation := "update", task_id := tid2, task_title := tt2,
          params := updateDetailParams ml ps0, needs_confirmation := true }

/-- `_detect_delete_intent` (lines 1149-1241). -/
def detectDeleteIntent (message messageLower : String) (h : List ChatMsg) : Intent :=
  let tid := extractTaskId message
  let tt := if tid.isNone then extractTaskTitle message messageLower else none
  let tt :=
    if tid.isNone && tt.isNone && h ≠ [] then
      match recentAssistant 3 h with
      | some m =>
        let la := lowerStr m.content
        if containsAnyOf la ["which task", "task name", "task you want", "task to delete",
            "provide the name", "mention the task", "task number"] then
          let t := pyStrip message
          let t := reSubHead [.alts [[.lit "the"], [.lit "a"], [.lit "an"], [.lit "delete"],
            [.lit "remove"]], .ws1] t
          let t := reSubAll [.ws1, .alts [[.lit "task"], [.lit "delete"], [.lit "remove"]],
            .dotStar, .eos] t
          if 2 ≤ t.length && !strIsDigit t then some t else none
        else none
      | none => none
    else tt
  if tid.isNone && tt.isNone then
    let (tid', tt') :=
      if h ≠ [] then
        match recentAssistant 3 h with
        | some m =>
          let la := lowerStr m.content
          if containsAnyOf la ["which task", "task name", "task you want", "task to delete",
              "provide the name", "mention the task", "task number", "kaunsa task",
              "wala task", "task delete kerna"] then
            let potential := pyStrip message
            match reDigits [[.opt [.lit "#"]]] potential with
            | some v => (some v, (none : Option String))
            | none =>
              let t := reSubHead [.alts [[.lit "the"], [.lit "a"], [.lit "an"],
                [.lit "delete"], [.lit "remove"]], .ws1] potential
              let t := reSubAll [.ws1, .alts [[.lit "task"], [.lit "delete"],
                [.lit "remove"]], .dotStar, .eos] t
              if 2 ≤ t.length && !strIsDigit t then (none, some t) else (none, none)
          else (none, none)
        | none => (none, none)
      else (none, none)
    if tid'.isNone && tt'.isNone then
      { operation := "delete_ask", needs_confirmation := true }
    else
      { operation := "delete", task_id := tid', task_title := tt',
        needs_confirmation := true }
  else
    { operation := "delete", task_id := tid, task_title := tt, needs_confirmation := true }

/-- `_detect_complete_intent` (lines 1244-1318). -/
def detectCompleteIntent (message messageLower : String) (h : List ChatMsg) : Intent :=
  let tid := extractTaskId message
  let tt := if tid.isNone then extractTaskTitle message messageLower else none
  let tt :=
    if tid.isNone && tt.isNone then
      match reCap [.lit "mark", .ws1, .opt [.lit "the", .ws1]]
          [[.ws1, .lit "as", .ws1, .alts [[.lit "complete"], [.lit "done"]]]]
          true false messageLower with
      | some t =>
        let t := reSubAll [.ws1, .lit "task", .ws0, .eos] (pyStrip t)
        let t := reSubHead [.alts [[.lit "the"], [.lit "a"], [.lit "an"]], .ws1] t
        if 2 < t.length && !strIsDigit t then some t else none
      | none => none
    else tt
  let tt :=
    if tid.isNone && tt.isNone then
      match reCap [.lit "complete", .ws1, .opt [.lit "the", .ws1]]
          [[.ws1, .lit "task"], [.eos]] true false messageLower with
      | some t =>
        let t := reSubAll [.ws1, .alts [[.lit "task"], [.lit "as"], [.lit "complete"],
          [.lit "done"]], .dotStar] (pyStrip t)
        if 2 < t.length && !strIsDigit t then some t else none
      | none => none
    else tt
  let tt :=
    if tid.isNone && tt.isNone then
      match reCap [.lit "mark", .ws1, .lit "task", .ws1]
          [[.ws1, .lit "as", .ws1, .alts [[.lit "complete"], [.lit "done"]]]]
          true false messageLower with
      | some t =>
        let t := pyStrip t
        if 2 < t.length && !strIsDigit t then some t else none
      | none => none
    else tt
  let tid := if tid.isNone && tt.isNone then getContextTaskId h else tid
  if tid.isNone && tt.isNone then
    { operation := "complete_ask", needs_confirmation := true }
  else
    { operation := "complete", task_id := tid, task_title := tt,
      needs_confirmation := true }

/-- `_detect_incomplete_intent` (lines 1321-1397). -/
def detectIncompleteIntent (message messageLower : String) (h : List ChatMsg) : Intent :=
  let incompleteAlts : Atom := .alts [[.lit "incomplete"], [.lit "pending"],
    [.lit "not", .ws1, .lit "done"], [.lit "undone"]]
  let tid := extractTaskId message
  let tt := if tid.isNone then extractTaskTitle message messageLower else none
  let tt :=
    if tid.isNone && tt.isNone then
      match reCap [.lit "mark", .ws1, .opt [.lit "the", .ws1]]
          [[.ws1, .lit "as", .ws1, incompleteAlts]] true false messageLower with
      | some t =>
        let t := reSubAll [.ws1, .lit "task", .ws0, .eos] (pyStrip t)
        let t := reSubHead [.alts [[.lit "the"], [.lit "a"], [.lit "an"]], .ws1] t
        if 2 < t.length && !strIsDigit t then some t else none
      | none => none
    else tt
  let tt :=
    if tid.isNone && tt.isNone then
      match reCap [.lit "mark", .ws1, .lit "task", .ws1]
          [[.ws1, .lit "as", .ws1, incompleteAlts]] true false messageLower with
      | some t =>
        let t := pyStrip t
        if 2 < t.length && !strIsDigit t then some t else none
      | none => none
    else tt
  let tt :=
    if tid.isNone && tt.isNone then
      match reCap [.alts [[.lit "unmark"], [.lit "set"]], .ws1]
          [[.ws1, .lit "task"], [.ws1, .lit "to", .ws1, .lit "incomplete"], [.eos]]
          true false messageLower with
      | some t =>
        let t := pyStrip t
        if 2 < t.length && !strIsDigit t then some t else none
      | none => none
    else tt
  let tid := if tid.isNone && tt.isNone then getContextTaskId h else tid
  if tid.isNone && tt.isNone then
    { operation := "incomplete_ask", params := [("completed", .b false)],
      needs_confirmation := true }
  else
    { operation := "incomplete", task_id := tid, task_title := tt,
      params := [("completed", .b false)], needs_confirmation := true }

/-- `_detect_add_intent` (lines 1400-1476). -/
def detectAddIntent (message _messageLower : String) (_h : List ChatMsg) : Intent :=
  if reMatchHead [.alts [[.lit "add"], [.lit "create"], [.lit "new"]], .ws1,
      .opt [.lit "a", .ws1], .opt [.lit "new", .ws1], .lit "task", .ws0,
      .opt [.chIn ".!?"], .ws0, .eos] message then
    { operation := "add", params := [], needs_confirmation := false }
  else
    match reCap [.alts [[.lit "add"], [.lit "create"], [.lit "new"]], .ws1,
        .opt [.lit "a", .ws1], .opt [.lit "new", .ws1], .lit "task",
        .opt [.ws0, .chIn ":-"], .ws1] [[.eos]] false false message with
    | some t =>
      let tt := pyStrip t
      let tt := if strStarts (lowerStr tt) "to " && !strStarts (lowerStr tt) "to-" then
          pyStrip (String.mk (tt.data.drop 3))
        else tt
      let tt := if strStarts (lowerStr tt) "for " then
          pyStrip (String.mk (tt.data.drop 4))
        else tt
      if 2 ≤ tt.length then
        { operation := "add", params := [("title", .s tt)], needs_confirmation := false }
      else
        { operation := "add", params := [], needs_confirmation := false }
    | none => { operation := "add", params := [], needs_confirmation := false }

/-- `_detect_list_intent` (lines 1479-1503). -/
def detectListIntent (_message messageLower : String) (_h : List ChatMsg) : Intent :=
  let status :=
    if strContains messageLower "completed" || strContains messageLower "done" then
      "completed"
    else if strContains messageLower "incomplete" || strContains messageLower "pending" ||
        strContains messageLower "active" then "active"
    else "all"
  { operation := "list", params := [("status", .s status)], needs_confirmation := false }

/-- STEP 1.75: the explicit title follow-up (lines 172-187),
`^(?:the\s+)?(?:task\s+)?title(?:\s+of\s+the\s+task)?\s*(?:is|:)\s+(.+)$`
anchored on the raw message. -/
def explicitTitleFollowUp (message : String) : Option Intent :=
  match capAt [.opt [.lit "the", .ws1], .opt [.lit "task", .ws1], .lit "title",
      .opt [.ws1, .lit "of", .ws1, .lit "the", .ws1, .lit "task"], .ws0,
      .alts [[.lit "is"], [.lit ":"]], .ws1] [[.eos]] false false (none, message.data) with
  | some cap =>
    let tt := pyStrip (String.mk cap)
    if !tt.isEmpty && 2 ≤ tt.length then
      some { operation := "add", params := [("title", .s tt)], needs_confirmation := false }
    else none
  | none => none

/-- Steps 1.5 through 7 of `detect_intent` (the part after the pending
confirmation check, lines 164-213). -/
def detectIntentRest (message messageLower : String) (h : List ChatMsg) : Option Intent :=
  match checkFollowUpResponse message messageLower h with
  | some i => some i
  | none =>
    match explicitTitleFollowUp message with
    | some i => some i
    | none =>
      if matchesAny message updatePatterns then some (detectUpdateIntent message messageLower h)
      else if matchesAny message deletePatterns then
        some (detectDeleteIntent message messageLower h)
      else if matchesAny message completePatterns then
        some (detectCompleteIntent message messageLower h)
      else if matchesAny message incompletePatterns then
        some (detectIncompleteIntent message messageLower h)
      else if matchesAny message addPatterns then some (detectAddIntent message messageLower h)
      else if matchesAny message listPatterns then some (detectListIntent message messageLower h)
      else none

/-- The message normalisation of `detect_intent` (line 141):
`message.lower().strip().replace('•', ',')`. -/
def normMsg (message : String) : String := replaceBullet (pyStrip (lowerStr message))

/-- `IntentDetector.detect_intent` / `detect_user_intent`: the deterministic
intent resolution for one user turn given the transcript. -/
def detectIntent (message : String) (h : List ChatMsg) : Option Intent :=
  let ml := normMsg message
  match checkPendingConfirmation h with
  | some pc =>
    if isConfirmationResponse ml true then
      some { operation := pc.operation, task_id := pc.task_id, task_title := pc.task_title,
             params := pc.params, needs_confirmation := false }
    else if isConfirmationResponse ml false then none
    else detectIntentRest message ml h
  | none => detectIntentRest message ml h

/-! ### The task store and the mcp_tools (src/backend/src/mcp_tools) -/

/-- A task row (models.Task as the tools read and write it; `created_at` is
an abstract monotone stamp, `due_date` the stored date rendered as text). -/
structure Task where
  id : Nat
  user_id : String
  title : String
  description : Option String := none
  priority : String := "medium"
  completed : Bool := false
  due_date : Option String := none
  created_at : Nat := 0
  deriving DecidableEq, Repr

/-- The task store (the rows of the tasks table). -/
abbrev Store := List Task

/-- The library-level collaborators the spec places out of scope (§1):
`thefuzz` similarity scoring, `parse_natural_date`,
`datetime.fromisoformat` acceptance, and the clock-dependent due-date range
check of `validate_task_data`.  The engine's contract never depends on
their internals, only on their results. -/
structure Ext where
  score : String → String → Nat
  parseDate : String → Option String
  isoOk : String → Bool
  dueWarn : String → Option String

/-- One step of a stable insertion sort: `x` goes right before the first
element it may precede (`le x y`), so elements it ties with and that came
earlier stay in front of it. -/
def insertLe {α : Type} (le : α → α → Bool) (x : α) : List α → List α
  | [] => [x]
  | y :: ys => if le x y then x :: y :: ys else y :: insertLe le x ys

/-- Python sorted(): a stable sort under the total preorder `le` (`le a b`
means `a` may come before `b`). -/
def pySorted {α : Type} (le : α → α → Bool) : List α → List α
  | [] => []
  | x :: xs => insertLe le x (pySorted le xs)

/-- utils.fuzzy_match_task_title: score every candidate, sort by score
descending (stable), keep those at or above the threshold; empty query or
candidate set gives an empty result. -/
def fuzzyMatchTaskTitle (ext : Ext) (query : String) (titles : List String)
    (threshold : Nat) : List (String × Nat) :=
  if query.isEmpty || titles.isEmpty then []
  else
    (pySorted (fun a b => decide (b.2 ≤ a.2))
      (titles.map (fun t => (t, ext.score query t)))).filter (fun m => threshold ≤ m.2)

/-- find_task's FindTaskResult. -/
structure FindResult where
  task_id : Nat
  title : String
  description : Option String
  completed : Bool
  priority : String
  confidence_score : Nat
  deriving DecidableEq, Repr

/-- Distinct titles in first-occurrence order (the keys of find_task's
`task_map` dict). -/
def dedupTitlesAux : List String → List String → List String
  | [], _ => []
  | t :: rest, seen =>
    if seen.contains t then dedupTitlesAux rest seen
    else t :: dedupTitlesAux rest (t :: seen)

/-- Distinct titles in first-occurrence order. -/
def dedupTitles (l : List String) : List String := dedupTitlesAux l []

/-- The task `task_map[title]` holds: the last task of the user with that
title (later dict insertions overwrite earlier ones). -/
def lastWithTitle (tasks : List Task) (t : String) : Option Task :=
  tasks.reverse.find? (fun x => x.title = t)

/-- mcp_tools.find_task: fuzzy title lookup restricted to the user's own
tasks, threshold 60, best match with its confidence. -/
def find_task (ext : Ext) (store : Store) (uid : String) (title : String) :
    Option FindResult :=
  let tasks := store.filter (fun t => t.user_id = uid)
  if tasks.isEmpty then none
  else
    match fuzzyMatchTaskTitle ext title (dedupTitles (tasks.map (fun t => t.title))) 60 with
    | [] => none
    | (bt, score) :: _ =>
      match lastWithTitle tasks bt with
      | some task =>
        some { task_id := task.id, title := task.title, description := task.description,
               completed := task.completed, priority := task.priority,
               confidence_score := score }
      | none => none

/-- mcp_tools.delete_task: query filtered by task id AND owning user; a miss
is the generic "Task not found"; on a hit the row is removed. -/
def delete_task (store : Store) (uid : String) (tid : Nat) :
    Except String (Nat × String) × Store :=
  match store.find? (fun t => t.id = tid && t.user_id = uid) with
  | none => (.error "Task not found", store)
  | some t =>
    (.ok (t.id, t.title), store.eraseP (fun x => x.id = tid && x.user_id = uid))

/-- update_task's parameters (UpdateTaskParams: pydantic drops keys it does
not declare, so `completed` and `due_date` never reach the store op). -/
structure UpdateTaskParams where
  user_id : String
  task_id : Nat
  title : Option String := none
  description : Option String := none
  priority : Option String := none
  deriving DecidableEq, Repr

/-- UpdateTaskParams construction with its priority validator. -/
def mkUpdateTaskParams (uid : String) (tid : Nat) (title desc prio : Option String) :
    Except String UpdateTaskParams :=
  match prio with
  | some v =>
    if v = "high" || v = "medium" || v = "low" then
      .ok { user_id := uid, task_id := tid, title := title, description := desc,
            priority := some v }
    else .error ("Invalid priority: " ++ v ++ ". Must be one of: high, medium, low")
  | none =>
    .ok { user_id := uid, task_id := tid, title := title, description := desc,
          priority := none }

/-- update_task's result row. -/
structure UpdateResult where
  task_id : Nat
  title : String
  description : Option String
  completed : Bool
  priority : String
  deriving DecidableEq, Repr

/-- Replace the first row satisfying `p` (the row `first()` returned). -/
def modifyFirst (p : Task → Bool) (f : Task → Task) : Store → Store
  | [] => []
  | t :: rest => if p t then f t :: rest else t :: modifyFirst p f rest

/-- mcp_tools.update_task: at least one field required, then the
user-scoped lookup (generic "Task not found" on a miss), then the partial
field update. -/
def update_task (store : Store) (ps : UpdateTaskParams) :
    Except String UpdateResult × Store :=
  if ps.title.isNone && ps.description.isNone && ps.priority.isNone then
    (.error "At least one field (title, description, or priority) must be provided", store)
  else
    match store.find? (fun t => t.id = ps.task_id && t.user_id = ps.user_id) with
    | none => (.error "Task not found", store)
    | some t =>
      let t' := { t with
        title := ps.title.getD t.title,
        description := (match ps.description with
          | some d => some d
          | none => t.description),
        priority := ps.priority.getD t.priority }
      (.ok { task_id := t'.id, title := t'.title, description := t'.description,
             completed := t'.completed, priority := t'.priority },
       modifyFirst (fun x => x.id = ps.task_id && x.user_id = ps.user_id) (fun _ => t') store)

/-- The id the database assigns to a new row. -/
def nextId (store : Store) : Nat := (store.map (fun t => t.id)).foldr max 0 + 1

/-- add_task's AddTaskParams with the pydantic default `priority="medium"`
and its priority validator. -/
structure AddTaskParams where
  user_id : String
  title : String
  description : Option String := none
  priority : String := "medium"
  due_date : Option String := none
  deriving DecidableEq, Repr

/-- AddTaskParams construction: the validator rejects priorities outside
high/medium/low (the default "medium" passes). -/
def mkAddTaskParams (uid title : String) (desc : Option String) (prio : String)
    (due : Option String) : Except String AddTaskParams :=
  if prio = "high" || prio = "medium" || prio = "low" then
    .ok { user_id := uid, title := title, description := desc, priority := prio,
          due_date := due }
  else .error ("Invalid priority: " ++ prio ++ ". Must be one of: high, medium, low")

/-- mcp_tools.add_task: title validation, date parse via the external Date
Normalizer (a parse failure stores no date rather than failing), then the
insert.  `created_at` takes the monotone stamp `nextId`. -/
def add_task (ext : Ext) (store : Store) (ps : AddTaskParams) :
    Except String Task × Store :=
  let title := pyStrip ps.title
  if title.isEmpty then (.error "Title cannot be empty", store)
  else if 200 < title.length then (.error "Title must be 200 characters or less", store)
  else
    let due := (match ps.due_date with
      | some d => ext.parseDate d
      | none => none)
    let t : Task :=
      { id := nextId store, user_id := ps.user_id, title := title,
        description := ps.description, priority := ps.priority, completed := false,
        due_date := due, created_at := nextId store }
    (.ok t, store ++ [t])

/-- mcp_tools.list_tasks: user-scoped, optional status and priority filters,
newest first. -/
def list_tasks (store : Store) (uid status priority : String) : List Task × Nat :=
  let q := store.filter (fun t => t.user_id = uid)
  let q := if status = "pending" then q.filter (fun t => t.completed = false)
    else if status = "completed" then q.filter (fun t => t.completed = true)
    else q
  let q := if priority ≠ "all" then q.filter (fun t => t.priority = priority) else q
  let q := pySorted (fun a b => decide (b.created_at ≤ a.created_at)) q
  (q, q.length)

/-- Modelled from the spec: `mcp_tools/complete_task.py` is imported by
routes/chat.py but its file is not among the repository's staged sources;
per §6's store contract (`update(user, task_id, partial_fields) → task |
NotFound`) and §7(c) it marks the user's own task completed and fails with
the generic not-found error otherwise. -/
def complete_task (store : Store) (uid : String) (tid : Nat) :
    Except String UpdateResult × Store :=
  match store.find? (fun t => t.id = tid && t.user_id = uid) with
  | none => (.error "Task not found", store)
  | some t =>
    let t' := { t with completed := true }
    (.ok { task_id := t'.id, title := t'.title, description := t'.description,
           completed := t'.completed, priority := t'.priority },
     modifyFirst (fun x => x.id = tid && x.user_id = uid) (fun _ => t') store)

/-! ### Tool calls and the per-turn executor (routes/chat.py lines 1101-1519) -/

/-- A proposed tool invocation. -/
structure ToolCall where
  tool : String
  params : Params
  deriving DecidableEq, Repr

/-- What one executed tool produced (the `result` field of each
executed_tools entry, restricted to what later steps read). -/
inductive ExecRes where
  | failed : String → ExecRes
  | taskR : Nat → String → String → Bool → Option String → ExecRes
  | delR : Nat → String → ExecRes
  | listR : List Task → Nat → ExecRes
  | findR : Option FindResult → ExecRes
  deriving DecidableEq, Repr

/-- One executed_tools entry. -/
structure ToolExec where
  tool : String
  params : Params
  res : ExecRes
  deriving DecidableEq, Repr

/-- Code-unit order on keys (what json.dumps sort_keys sorts by). -/
def charListLe : List Char → List Char → Bool
  | [], _ => true
  | _ :: _, [] => false
  | a :: as, b :: bs =>
    if a.val < b.val then true
    else if b.val < a.val then false
    else charListLe as bs

/-- The deduplication signature of a tool call (line 1115-1118): tool name
plus the parameters without user_id, rendered key-sorted. -/
def canonParams (ps : Params) : Params :=
  pySorted (fun a b => charListLe a.1.data b.1.data)
    (ps.filter (fun kv => kv.1 ≠ "user_id"))

/-- `f"{tool_name}:{json.dumps(param_copy, sort_keys=True)}"` as a pair. -/
def sigOf (c : ToolCall) : String × Params := (c.tool, canonParams c.params)

/-- The priority chat.py passes to AddTaskParams (line 1151):
`tool_params.get('priority', 'medium')` — a default inserted when the
params mapping carries no priority key. -/
def addCallPriority (ps : Params) : String := (pgetStr ps "priority").getD "medium"

/-- Execute one tool call (the per-tool branches of lines 1130-1519);
returns the executed_tools entry when one is appended, the tool_errors
additions, and the new store.  The set_task_deadline branch's import fails
(the module is absent from the repository), so its exception handler leaves
both lists untouched. -/
def execOne (ext : Ext) (uid : String) (store : Store) (c : ToolCall) :
    Option ToolExec × List (String × String) × Store :=
  if c.tool = "add_task" then
    match pgetStr c.params "title" with
    | none =>
      (none, [("add_task", "Task title is required. Please provide a title for the task.")],
        store)
    | some t =>
      if (pyStrip t).isEmpty then
        (none, [("add_task", "Task title is required. Please provide a title for the task.")],
          store)
      else
        match mkAddTaskParams uid (pyStrip t) (pgetStr c.params "description")
            (addCallPriority c.params) (pgetStr c.params "due_date") with
        | .error e => (none, [("add_task", e)], store)
        | .ok ap =>
          match add_task ext store ap with
          | (.ok task, store') =>
            (some { tool := "add_task", params := c.params,
                    res := .taskR task.id task.title task.priority task.completed
                      task.due_date }, [], store')
          | (.error e, store') => (none, [("add_task", e)], store')
  else if c.tool = "list_tasks" then
    let status := (pgetStr c.params "status").getD "all"
    if status = "all" || status = "pending" || status = "completed" then
      let (ts, n) := list_tasks store uid status "all"
      (some { tool := "list_tasks", params := c.params, res := .listR ts n }, [], store)
    else
      let e := "Status must be one of ['all', 'pending', 'completed'], got '" ++ status ++ "'"
      (some { tool := "list_tasks", params := c.params, res := .failed e },
        [("list_tasks", e)], store)
  else if c.tool = "complete_task" then
    match pgetNat c.params "task_id" with
    | none =>
      (some { tool := "complete_task", params := c.params,
              res := .failed "task_id is required" },
        [("complete_task", "task_id is required")], store)
    | some tid =>
      match complete_task store uid tid with
      | (.ok r, store') =>
        (some { tool := "complete_task", params := c.params,
                res := .taskR r.task_id r.title r.priority r.completed none }, [], store')
      | (.error e, store') =>
        (some { tool := "complete_task", params := c.params, res := .failed e },
          [("complete_task", e)], store')
  else if c.tool = "update_task" then
    match pgetNat c.params "task_id" with
    | none =>
      (some { tool := "update_task", params := c.params,
              res := .failed "task_id is required" },
        [("update_task", "task_id is required")], store)
    | some tid =>
      let dueBad :=
        if phas c.params "due_date" then
          match pget c.params "due_date" with
          | some (.s d) => !(pyStrip d).isEmpty && !ext.isoOk d
          | _ => false
        else false
      if dueBad then
        let e := "Invalid due_date format: " ++ ((pgetStr c.params "due_date").getD "")
        (some { tool := "update_task", params := c.params, res := .failed e },
          [("update_task", e)], store)
      else
        match mkUpdateTaskParams uid tid (pgetStr c.params "title")
            (pgetStr c.params "description") (pgetStr c.params "priority") with
        | .error e =>
          (some { tool := "update_task", params := c.params, res := .failed e },
            [("update_task", e)], store)
        | .ok up =>
          match update_task store up with
          | (.ok r, store') =>
            (some { tool := "update_task", params := c.params,
                    res := .taskR r.task_id r.title r.priority r.completed none }, [], store')
          | (.error e, store') =>
            (some { tool := "update_task", params := c.params, res := .failed e },
              [("update_task", e)], store')
  else if c.tool = "delete_task" then
    match pgetNat c.params "task_id" with
    | none =>
      (some { tool := "delete_task", params := c.params,
              res := .failed "task_id is required" },
        [("delete_task", "task_id is required")], store)
    | some tid =>
      match delete_task store uid tid with
      | (.ok r, store') =>
        (some { tool := "delete_task", params := c.params, res := .delR r.1 r.2 }, [], store')
      | (.error e, store') =>
        (some { tool := "delete_task", params := c.params, res := .failed e },
          [("delete_task", e)], store')
  else if c.tool = "set_task_deadline" then
    (none, [], store)
  else if c.tool = "find_task" then
    match pgetStr c.params "title" with
    | none =>
      (some { tool := "find_task", params := c.params, res := .failed "title is required" },
        [("find_task", "title is required")], store)
    | some t =>
      (some { tool := "find_task", params := c.params, res := .findR (find_task ext store uid t) },
        [], store)
  else (none, [], store)

/-- The execution loop with duplicate suppression (lines 1105-1128): a call
whose signature was already seen is skipped; otherwise its signature is
recorded and the call dispatched. -/
def runCalls (ext : Ext) (uid : String) :
    List ToolCall → List (String × Params) → Store →
    List ToolExec × List (String × String) × Store
  | [], _, store => ([], [], store)
  | c :: rest, seen, store =>
    if seen.contains (sigOf c) then runCalls ext uid rest seen store
    else
      let (e, errs1, store1) := execOne ext uid store c
      let (ex2, errs2, store2) := runCalls ext uid rest (sigOf c :: seen) store1
      ((match e with | some x => x :: ex2 | none => ex2), errs1 ++ errs2, store2)

/-- The same loop without the seen-set: every call dispatches. -/
def runPlain (ext : Ext) (uid : String) : List ToolCall → Store →
    List ToolExec × List (String × String) × Store
  | [], store => ([], [], store)
  | c :: rest, store =>
    let (e, errs1, store1) := execOne ext uid store c
    let (ex2, errs2, store2) := runPlain ext uid rest store1
    ((match e with | some x => x :: ex2 | none => ex2), errs1 ++ errs2, store2)

/-- First-occurrence selection by signature: the calls the loop dispatches. -/
def dedupToolCalls : List ToolCall → List (String × Params) → List ToolCall
  | [], _ => []
  | c :: rest, seen =>
    if seen.contains (sigOf c) then dedupToolCalls rest seen
    else c :: dedupToolCalls rest (sigOf c :: seen)

/-! ### The chat endpoint's deterministic engine (routes/chat.py `chat`) -/

/-- `str(n)`. -/
def natStr (n : Nat) : String := toString n

/-- The task ornament of the confirmation question (lines 419-434): the id
when known, otherwise a find_task lookup by title for a better message. -/
def taskDetails (ext : Ext) (store : Store) (uid : String) (i : Intent) : String :=
  match i.task_id with
  | some tid => " #" ++ natStr tid
  | none =>
    match i.task_title with
    | some t =>
      match find_task ext store uid t with
      | some fr => " #" ++ natStr fr.task_id ++ " ('" ++ fr.title ++ "')"
      | none => " '" ++ t ++ "'"
    | none => ""

/-- The delete confirmation question (line 438). -/
def deleteConfirmMsg (td : String) : String :=
  "🗑️ Kya aap sure hain k task" ++ td ++
  " delete karna hai? (Are you sure you want to delete this task?)\n\nReply 'yes' to confirm or 'no' to cancel."

/-- The complete confirmation question (line 457). -/
def completeConfirmMsg (td : String) : String :=
  "✅ Task" ++ td ++
  " ko complete mark kar doon? (Mark this task as complete?)\n\nReply 'yes' to confirm or 'no' to cancel."

/-- The incomplete confirmation question (line 476). -/
def incompleteConfirmMsg (td : String) : String :=
  "⏳ Task" ++ td ++
  " ko incomplete mark kar doon? (Mark this task as incomplete?)\n\nReply 'yes' to confirm or 'no' to cancel."

/-- The change summary of the update confirmation (lines 479-494). -/
def updateChanges (ps : Params) : List String :=
  (match pget ps "title" with
    | some (.s v) => ["Title → " ++ v]
    | _ => []) ++
  (match pget ps "priority" with
    | some (.s v) => ["Priority → " ++ v]
    | _ => []) ++
  (match pget ps "due_date" with
    | some .null => ["Due date → removed"]
    | some (.s v) => ["Due date → " ++ v]
    | _ => []) ++
  (match pget ps "description" with
    | some (.s _) => ["Description → updated"]
    | _ => []) ++
  (match pget ps "completed" with
    | some (.b v) => ["Completed → " ++ (if v then "True" else "False")]
    | _ => [])

/-- The update confirmation question (lines 494-499). -/
def updateConfirmMsg (td : String) (ps : Params) : String :=
  let cs := updateChanges ps
  let changeText :=
    if cs.isEmpty then "• (no changes detected)"
    else String.intercalate "\n" (cs.map (fun c => "• " ++ c))
  "📝 Update Task" ++ td ++ " with these changes?\n\n" ++ changeText ++
  "\n\nReply 'yes' to confirm or 'no' to cancel."

/-- The what-to-update question (lines 500-515). -/
def updateAskMsg (td : String) : String :=
  "📝 Task" ++ td ++
  " — what would you like to update?\n\nYou can reply like:\n• title to Buy groceries\n• priority to high\n• due date to Jan 20, 2026 3 PM\n• remove due date\n• description: ...\n• mark as complete / mark as incomplete\n\nTell me the changes, then I'll confirm and apply them."

/-- The generic confirmation question (line 517). -/
def genericConfirmMsg : String :=
  "Kya aap sure hain? (Are you sure?)\n\nReply 'yes' to confirm or 'no' to cancel."

/-- The low-confidence candidate question (lines 564-569 and peers): a
distinct confirmation turn naming that specific candidate. -/
def lowConfMsg (query : String) (fr : FindResult) (verb : String) : String :=
  "🔍 I found a task that might match '" ++ query ++ "':\n   '" ++ fr.title ++
  "' (Task #" ++ natStr fr.task_id ++ ") - " ++ natStr fr.confidence_score ++
  "% match\n\nIs this the task you want to " ++ verb ++
  "?\nReply 'yes' to confirm or 'no' to cancel."

/-- The first 10 tasks as a bullet list (line 598 and peers). -/
def taskListLines (ts : List Task) : String :=
  String.intercalate "\n" ((ts.take 10).map (fun t => "  • #" ++ natStr t.id ++ ": " ++ t.title))

/-- The no-match listing (lines 599-603 and peers). -/
def noMatchMsg (query : String) (ts : List Task) : String :=
  "I couldn't find a task matching '" ++ query ++
  "'.\n\nHere are your current tasks:\n" ++ taskListLines ts ++
  "\n\nPlease specify the task by ID or exact title."

/-- The outcome of resolving a title-only target through find_task
(lines 793-871 and the parallel update/complete/incomplete blocks). -/
inductive Resolve where
  /-- high-confidence match: proceed with this id -/
  | resolved : Nat → Resolve
  /-- early reply (low-confidence candidate question, or the task listing) -/
  | ask : String → Resolve
  /-- no match and the user has no tasks: fall through -/
  | fallthrough : Resolve
  deriving DecidableEq, Repr

/-- Fuzzy target resolution for a confirmed mutating intent carrying only a
title: no match lists the user's tasks (when any exist), confidence below
80 asks about that candidate, otherwise the target is resolved. -/
def resolveByTitle (ext : Ext) (store : Store) (uid : String) (query verb : String) :
    Resolve :=
  match find_task ext store uid query with
  | some fr =>
    if fr.confidence_score < 80 then .ask (lowConfMsg query fr verb)
    else .resolved fr.task_id
  | none =>
    let (ts, _) := list_tasks store uid "all" "all"
    if ts.isEmpty then .fallthrough else .ask (noMatchMsg query ts)

/-- The update branch's context scan for a target (lines 628-672): prior
user update phrasings and assistant `task '…'` mentions, resolved through
find_task; a failed lookup keeps scanning older turns. -/
def updateCtxScan (ext : Ext) (store : Store) (uid : String) :
    List ChatMsg → Option Nat
  | [] => none
  | m :: rest =>
    if m.role = "user" then
      let um := lowerStr m.content
      match reCap [.alts [[.lit "update"], [.lit "want", .ws1, .lit "to", .ws1, .lit "update"]],
          .ws1, .opt [.lit "the", .ws1], .lit "task", .opt [.lit ":"], .ws1]
          [[.ws1, .lit "update"], [.ws1, .lit "title"], [.ws1, .lit "priority"],
           [.ws1, .lit "deadline"], [.eos]] true false um with
      | some t =>
        let t := reSubHead [.alts [[.lit "the"], [.lit "a"], [.lit "an"]], .ws1] (pyStrip t)
        if 2 < t.length && lowerStr t ≠ "the" then
          match find_task ext store uid t with
          | some fr => some fr.task_id
          | none => updateCtxScan ext store uid rest
        else updateCtxScan ext store uid rest
      | none => updateCtxScan ext store uid rest
    else if m.role = "assistant" then
      let am := lowerStr m.content
      match reCap [.lit "task", .ws1, .chIn "\"'"] [[.chIn "\"'"]] true false am with
      | some t =>
        let t := pyStrip t
        if 2 < t.length then
          match find_task ext store uid t with
          | some fr => some fr.task_id
          | none => updateCtxScan ext store uid rest
        else updateCtxScan ext store uid rest
      | none => updateCtxScan ext store uid rest
    else updateCtxScan ext store uid rest

/-- The update_params dict chat.py builds for a confirmed update
(lines 674-700): only fields the intent actually carries, the due date
routed through the Date Normalizer (a parse failure drops the key). -/
def buildUpdateCallParams (ext : Ext) (tid : Nat) (ips : Params) : Params :=
  let ps : Params := [("task_id", .num tid)]
  let ps := match pget ips "title" with
    | some (.s v) => pset ps "title" (.s v)
    | _ => ps
  let ps := match pget ips "description" with
    | some (.s v) => pset ps "description" (.s v)
    | _ => ps
  let ps := match pget ips "priority" with
    | some (.s v) => pset ps "priority" (.s v)
    | _ => ps
  let ps :=
    if phas ips "due_date" then
      match pget ips "due_date" with
      | some .null => pset ps "due_date" .null
      | some (.s d) =>
        (match ext.parseDate d with
          | some iso => pset ps "due_date" (.s iso)
          | none => ps)
      | _ => ps
    else ps
  ps

/-- What the forced-execution stage decides for a confirmed intent: an
early reply, or the forced tool calls (possibly none, in which case the
turn falls through to the external LLM agent). -/
inductive Forced where
  | early : String → Forced
  | calls : List ToolCall → Forced
  deriving DecidableEq, Repr

/-- The forced-execution decision (lines 547-1066) for an intent with
`needs_confirmation = false`. -/
def forcedStage (ext : Ext) (store : Store) (uid : String) (i : Intent)
    (h : List ChatMsg) : Forced :=
  if (i.operation = "update" || i.operation = "update_ask") && !i.params.isEmpty then
    let r : Resolve := match i.task_id with
      | some tid => .resolved tid
      | none =>
        match i.task_title with
        | some t => resolveByTitle ext store uid t "update"
        | none => .fallthrough
    match r with
    | .ask msg => .early msg
    | .resolved tid =>
      let ps := buildUpdateCallParams ext tid i.params
      if 1 < ps.length then .calls [{ tool := "update_task", params := ps }]
      else .calls []
    | .fallthrough =>
      match updateCtxScan ext store uid ((lastSlice 10 h).reverse) with
      | some tid =>
        let ps := buildUpdateCallParams ext tid i.params
        if 1 < ps.length then .calls [{ tool := "update_task", params := ps }]
        else .calls []
      | none => .calls []
  else if i.operation = "delete" then
    match i.task_id with
    | some tid => .calls [{ tool := "delete_task", params := [("task_id", .num tid)] }]
    | none =>
      match i.task_title with
      | some t =>
        match resolveByTitle ext store uid t "delete" with
        | .resolved tid => .calls [{ tool := "delete_task", params := [("task_id", .num tid)] }]
        | .ask msg => .early msg
        | .fallthrough => .calls []
      | none => .calls []
  else if i.operation = "complete" then
    match i.task_id with
    | some tid => .calls [{ tool := "complete_task", params := [("task_id", .num tid)] }]
    | none =>
      match i.task_title with
      | some t =>
        match resolveByTitle ext store uid t "mark as complete" with
        | .resolved tid =>
          .calls [{ tool := "complete_task", params := [("task_id", .num tid)] }]
        | .ask msg => .early msg
        | .fallthrough => .calls []
      | none => .calls []
  else if i.operation = "incomplete" then
    match i.task_id with
    | some tid =>
      .calls [{ tool := "update_task",
                params := [("task_id", .num tid), ("completed", .b false)] }]
    | none =>
      match i.task_title with
      | some t =>
        match resolveByTitle ext store uid t "mark as incomplete" with
        | .resolved tid =>
          .calls [{ tool := "update_task",
                    params := [("task_id", .num tid), ("completed", .b false)] }]
        | .ask msg => .early msg
        | .fallthrough => .calls []
      | none => .calls []
  else .calls []

/-- The success line the skip-AI response generator writes for one executed
tool (lines 1536-1568). -/
def synthLine (e : ToolExec) : Option String :=
  match e.res with
  | .taskR id title prio completed due =>
    if e.tool = "update_task" then
      let updates :=
        (if phas e.params "priority" then ["priority to " ++ prio] else []) ++
        (if phas e.params "due_date" then
          (match due with
            | some _ => ["due date"]
            | none => ["removed due date"]) else []) ++
        (if phas e.params "completed" then
          ["marked as " ++ (if completed then "complete" else "incomplete")] else []) ++
        (if phas e.params "title" then ["title to '" ++ title ++ "'"] else [])
      if updates.isEmpty then some ("✅ I've updated task #" ++ natStr id ++ " (" ++ title ++ ").")
      else some ("✅ I've updated task #" ++ natStr id ++ " (" ++ title ++ "): " ++
        String.intercalate ", " updates ++ ".")
    else if e.tool = "complete_task" then
      some ("✅ I've marked task #" ++ natStr id ++ " (" ++ title ++ ") as complete.")
    else none
  | .delR id title =>
    if e.tool = "delete_task" then
      some ("✅ I've removed task #" ++ natStr id ++ " (" ++ title ++ ") from your tasks.")
    else none
  | _ => none

/-- The skip-AI final response (lines 1534-1582): the success lines, the
"Done!" fallback, and the error override when any tool failed. -/
def synthResponse (executed : List ToolExec) (errs : List (String × String)) : String :=
  let lines := executed.filterMap synthLine
  let base := if lines.isEmpty then "✅ Done!" else String.intercalate "\n" lines
  if errs.isEmpty then base
  else
    let shown := (errs.take 3).map (fun e => "- " ++ e.1 ++ ": " ++ e.2)
    let extra := if 3 < errs.length then ["- ...and " ++ natStr (errs.length - 3) ++ " more"]
      else []
    String.intercalate "\n" ("⚠️ I couldn't complete your request due to an error:" :: shown ++ extra)

/-- The outcome of one chat turn. -/
inductive TOut where
  /-- an HTTP error raised before the engine ran -/
  | httpE : Nat → String → TOut
  /-- a reply produced by the deterministic engine (text, executed tools) -/
  | msgOut : String → List ToolExec → TOut
  /-- the turn falls through to the external LLM agent -/
  | llm : List ToolCall → TOut
  deriving DecidableEq, Repr

/-- The observable result of one chat turn: outcome, resulting store, the
messages appended to the conversation, and whether the conversation record
was created or resumed at all. -/
structure TurnRes where
  out : TOut
  store : Store
  added : List ChatMsg
  convTouched : Bool
  deriving DecidableEq, Repr

/-- One run of the chat endpoint's deterministic engine (routes/chat.py
`chat`): input sanitisation, auth check, intent detection, the confirmation
protocol, forced execution with duplicate suppression, and the reply.  The
paths that consult the external LLM agent end in `TOut.llm`. -/
def chatTurn (ext : Ext) (pathUser jwtUser : String) (message : String)
    (h : List ChatMsg) (store : Store) : TurnRes :=
  let sanitized := pyStrip message
  if 10000 < sanitized.length then
    { out := .httpE 400 "Message too long (max 10000 characters)", store := store,
      added := [], convTouched := false }
  else if pathUser ≠ jwtUser then
    { out := .httpE 403 "Cannot access chat for other users", store := store,
      added := [], convTouched := false }
  else
    let message := sanitized
    let uid := pathUser
    match detectIntent message h with
    | none =>
      let cancel : Option String :=
        match recentAssistant 3 h with
        | some m =>
          let la := lowerStr m.content
          if strContains la "sure" || strContains la "confirm" || strContains la "cancel" then
            let ml := pyStrip (lowerStr message)
            if containsAnyOf ml ["no", "nahi", "cancel", "na", "nope", "not"] &&
                wordCount ml ≤ 3 then
              some "❌ Update cancelled. No changes were made."
            else none
          else none
        | none => none
      match cancel with
      | some cmsg =>
        { out := .msgOut cmsg [], store := store,
          added := [{ role := "user", content := message },
                    { role := "assistant", content := cmsg }],
          convTouched := true }
      | none => { out := .llm [], store := store, added := [], convTouched := true }
    | some i =>
      if i.needs_confirmation then
        let td := taskDetails ext store uid i
        let cmsg :=
          if i.operation = "delete" then deleteConfirmMsg td
          else if i.operation = "complete" then completeConfirmMsg td
          else if i.operation = "incomplete" then incompleteConfirmMsg td
          else if i.operation = "update" then updateConfirmMsg td i.params
          else if i.operation = "update_ask" then
            let td := if td.isEmpty then
                (match i.task_title with
                  | some t => " '" ++ t ++ "'"
                  | none => td)
              else td
            updateAskMsg td
          else genericConfirmMsg
        { out := .msgOut cmsg [], store := store,
          added := [{ role := "user", content := message },
                    { role := "assistant", content := cmsg }],
          convTouched := true }
      else
        match forcedStage ext store uid i h with
        | .early msg =>
          { out := .msgOut msg [], store := store,
            added := [{ role := "user", content := message },
                      { role := "assistant", content := msg }],
            convTouched := true }
        | .calls [] => { out := .llm [], store := store, added := [], convTouched := true }
        | .calls forced =>
          let (executed, errs, store') := runCalls ext uid forced [] store
          let reply := synthResponse executed errs
          { out := .msgOut reply executed, store := store',
            added := [{ role := "user", content := message },
                      { role := "assistant", content := reply }],
            convTouched := true }

/-! ### ai_agent/runner.py parameter enhancement -/

/-- utils.suggest_priority_from_keywords' high-priority keyword table. -/
def highKeywords : List String :=
  ["urgent", "asap", "important", "critical", "emergency", "deadline", "today",
   "now", "immediately", "soon"]

/-- utils.suggest_priority_from_keywords' low-priority keyword table. -/
def lowKeywords : List String :=
  ["someday", "maybe", "later", "eventually", "minor", "trivial", "optional",
   "nice to have"]

/-- utils.suggest_priority_from_keywords: first matching keyword wins, high
before low, otherwise medium. -/
def suggest_priority_from_keywords (title description : String) : String :=
  let text := lowerStr (title ++ " " ++ description)
  if containsAnyOf text highKeywords then "high"
  else if containsAnyOf text lowKeywords then "low"
  else "medium"

/-- utils.validate_task_data folded with runner lines 83-96: the warning
enhance_tool_parameters attaches (title rules first, then the
clock-dependent due-date range check, which is external). -/
def validateWarning (ext : Ext) (toolName : String) (ps psEnh : Params) : Option String :=
  let titleWarn : Option String :=
    if toolName = "add_task" then
      match pgetStr ps "title" with
      | some t =>
        if (pyStrip t).isEmpty then some "Task title cannot be empty"
        else if 200 < t.length then some "Task title too long (max 200 characters)"
        else none
      | none => none
    else none
  match titleWarn with
  | some w => some w
  | none =>
    match pget psEnh "due_date" with
    | some (.s d) => if ext.isoOk d then ext.dueWarn d else none
    | _ => none

/-- runner.enhance_tool_parameters: natural-language date normalisation for
add/update, the priority auto-suggestion for add_task when no priority was
provided (only a non-medium suggestion inserts the key), and the validation
warning. -/
def enhance_tool_parameters (ext : Ext) (toolName : String) (ps : Params) : Params :=
  if toolName = "add_task" || toolName = "update_task" then
    let psEnh :=
      if phas ps "due_date" then
        match pget ps "due_date" with
        | some (.s d) =>
          (match ext.parseDate d with
            | some iso => pset ps "due_date" (.s iso)
            | none => ps)
        | _ => ps
      else ps
    let psEnh :=
      if toolName = "add_task" && !phas ps "priority" then
        let suggested := suggest_priority_from_keywords ((pgetStr ps "title").getD "")
          ((pgetStr ps "description").getD "")
        if suggested ≠ "medium" then pset psEnh "priority" (.s suggested) else psEnh
      else psEnh
    match validateWarning ext toolName ps psEnh with
    | some w => pset psEnh "_validation_warning" (.s w)
    | none => psEnh
  else ps

/-- A concrete instantiation of the external collaborators for test
scenarios: exact (case-insensitive) titles score 100, everything else 0,
dates never parse. -/
def extTest : Ext :=
  { score := fun q t => if lowerStr q = lowerStr t then 100 else 0,
    parseDate := fun _ => none, isoOk := fun _ => false, dueWarn := fun _ => none }

/-- A two-user store for test scenarios. -/
def storeTest : Store :=
  [ { id := 5, user_id := "u1", title := "buy milk" },
    { id := 6, user_id := "u2", title := "other" } ]

/-- The executed_tools list a turn outcome carries (empty for the HTTP
errors and the LLM deferrals, which execute nothing in the engine). -/
def TOut.execs : TOut → List ToolExec
  | .msgOut _ ex => ex
  | _ => []

/-- The text suggest_priority_from_keywords scans when runner.py enhances an
add_task call: the lowered title-plus-description of the params. -/
def addText (ps : Params) : String :=
  lowerStr (((pgetStr ps "title").getD "") ++ " " ++ ((pgetStr ps "description").getD ""))

/-- The transcript after the first turn of the delete-task-5 scenario. -/
def histC1 : List ChatMsg :=
  [{ role := "user", content := "delete task 5" },
   { role := "assistant", content := deleteConfirmMsg " #5" }]

/-- The forced delete call for task 5. -/
def cDel5 : ToolCall := { tool := "delete_task", params := [("task_id", .num 5)] }

/-- The executed_tools entry of a successful forced delete of task 5. -/
def delExecOf (t : Task) : ToolExec :=
  { tool := "delete_task", params := [("task_id", .num 5)], res := .delR t.id t.title }

/-- The executed_tools entry of a forced delete of task 5 that found no row. -/
def delFailExec : ToolExec :=
  { tool := "delete_task", params := [("task_id", .num 5)], res := .failed "Task not found" }

/-- A store in which user u1 owns task 5 and another user owns task 6. -/
def storeC1w : Store :=
  [{ id := 5, user_id := "u1", title := "buy milk" },
   { id := 6, user_id := "u2", title := "other" }]

/-- A transcript whose last assistant turn is a delete confirmation question
for task #5. -/
def histC2 : List ChatMsg :=
  [{ role := "assistant", content := "Are you sure you want to delete task #5?" }]

/-- A delete call without a user_id parameter. -/
def cDelC4 : ToolCall := { tool := "delete_task", params := [("task_id", .num 1)] }

/-- The same delete call with a user_id parameter: its dedup signature drops
user_id, so it collides with `cDelC4`. -/
def cDelC4dup : ToolCall :=
  { tool := "delete_task", params := [("user_id", .s "x"), ("task_id", .num 1)] }

/-- A list call. -/
def cListC4 : ToolCall := { tool := "list_tasks", params := [] }

/-- A turn's proposed calls holding a duplicate pair. -/
def callsC4 : List ToolCall := [cDelC4, cDelC4dup, cListC4]

/-- A transcript whose last assistant turn is a delete confirmation question
naming the target only by title. -/
def histC5 : List ChatMsg :=
  [{ role := "assistant", content := "Are you sure you want to delete task 'milk'?" }]

/-- A one-task store owned by u1. -/
def storeC5 : Store := [{ id := 5, user_id := "u1", title := "buy milk" }]

/-- A confirmed delete intent carrying only a title phrase. -/
def iC5 : Intent :=
  { operation := "delete", task_id := none, task_title := some "buy milk",
    params := [], needs_confirmation := false }

/-- The find_task result for "buy milk" against `storeC5` under `extTest`. -/
def frC5 : FindResult :=
  { task_id := 5, title := "buy milk", description := none, completed := false,
    priority := "medium", confidence_score := 100 }

/-- An add call whose params carry a title but no priority key. -/
def cAddC7 : ToolCall := { tool := "add_task", params := [("title", .s "buy milk")] }

/-- A transcript whose last assistant turn is a delete confirmation question
for task #7. -/
def histC10 : List ChatMsg :=
  [{ role := "assistant", content := "Are you sure you want to delete task #7?" }]

/-- The pending confirmation `histC10` reconstructs. -/
def pcC10 : PendingConf :=
  { operation := "delete", task_id := some 7, task_title := none, params := [] }

/-- The due-date normalisation pass of enhance_tool_parameters (runner.py
lines 62-70), named so its effect on other keys can be stated. -/
def dueNormA (ext : Ext) (ps : Params) : Params :=
  if phas ps "due_date" then
    match pget ps "due_date" with
    | some (.s d) =>
      (match ext.parseDate d with
        | some iso => pset ps "due_date" (.s iso)
        | none => ps)
    | _ => ps
  else ps

/-! ### Support lemmas -/

set_option maxHeartbeats 2000000

/-- The mutating operation tags (the plain ones and their target-missing
"_ask" variants). -/
def mutatingOps : List String :=
  ["update", "delete", "complete", "incomplete", "update_ask", "delete_ask",
   "complete_ask", "incomplete_ask"]

/-- Is the operation a mutating one? -/
def isMutatingOp (op : String) : Bool := mutatingOps.contains op

theorem detectUpdateIntent_conf (m ml : String) (h : List ChatMsg) :
    (detectUpdateIntent m ml h).needs_confirmation = true := by
  unfold detectUpdateIntent
  dsimp only
  repeat' split <;> try rfl

theorem detectDeleteIntent_conf (m ml : String) (h : List ChatMsg) :
    (detectDeleteIntent m ml h).needs_confirmation = true := by
  unfold detectDeleteIntent
  dsimp only
  repeat' split <;> try rfl

theorem detectCompleteIntent_conf (m ml : String) (h : List ChatMsg) :
    (detectCompleteIntent m ml h).needs_confirmation = true := by
  unfold detectCompleteIntent
  dsimp only
  repeat' split <;> try rfl

theorem detectIncompleteIntent_conf (m ml : String) (h : List ChatMsg) :
    (detectIncompleteIntent m ml h).needs_confirmation = true := by
  unfold detectIncompleteIntent
  dsimp only
  repeat' split <;> try rfl

theorem detectAddIntent_op (m ml : String) (h : List ChatMsg) :
    (detectAddIntent m ml h).operation = "add" := by
  unfold detectAddIntent
  dsimp only
  repeat' split <;> try rfl

theorem detectListIntent_op (m ml : String) (h : List ChatMsg) :
    (detectListIntent m ml h).operation = "list" := by
  unfold detectListIntent
  dsimp only
  repeat' split <;> try rfl

theorem askingBranch_conf (msg am : String) (i : Intent) :
    askingBranch msg am = some i → i.needs_confirmation = true := by
  unfold askingBranch
  intro hEq
  dsimp only at hEq
  repeat' split at hEq
  all_goals
    first
      | exact Option.noConfusion hEq
      | (injection hEq with hEq2; subst hEq2; rfl)

theorem checkFollowUp_unconfirmed_add (m ml : String) (h : List ChatMsg) (i : Intent) :
    checkFollowUpResponse m ml h = some i → i.needs_confirmation = false →
    i.operation = "add" := by
  unfold checkFollowUpResponse
  intro hEq hConf
  dsimp only at hEq
  repeat' split at hEq
  all_goals
    first
      | exact Option.noConfusion hEq
      | (injection hEq with hEq2; subst hEq2;
         first
           | rfl
           | exact absurd hConf (by simp))
      | exact absurd (askingBranch_conf _ _ _ hEq) (by simp [hConf])

theorem explicitTitle_add (m : String) (i : Intent) :
    explicitTitleFollowUp m = some i → i.operation = "add" := by
  unfold explicitTitleFollowUp
  intro hEq
  dsimp only at hEq
  repeat' split at hEq
  all_goals
    first
      | exact Option.noConfusion hEq
      | (injection hEq with hEq2; subst hEq2; rfl)

/-- Any intent the post-confirmation steps produce with
`needs_confirmation = false` is a non-mutating add or list. -/
theorem detectIntentRest_unconfirmed (m ml : String) (h : List ChatMsg) (i : Intent) :
    detectIntentRest m ml h = some i → i.needs_confirmation = false →
    i.operation = "add" ∨ i.operation = "list" := by
  intro hEq hConf
  unfold detectIntentRest at hEq
  cases hF : checkFollowUpResponse m ml h with
  | some j =>
    simp only [hF] at hEq
    cases hEq
    exact Or.inl (checkFollowUp_unconfirmed_add _ _ _ _ hF hConf)
  | none =>
    simp only [hF] at hEq
    cases hT : explicitTitleFollowUp m with
    | some j =>
      simp only [hT] at hEq
      cases hEq
      exact Or.inl (explicitTitle_add _ _ hT)
    | none =>
      simp only [hT] at hEq
      split at hEq
      · cases hEq; exact absurd hConf (by simp [detectUpdateIntent_conf])
      · split at hEq
        · cases hEq; exact absurd hConf (by simp [detectDeleteIntent_conf])
        · split at hEq
          · cases hEq; exact absurd hConf (by simp [detectCompleteIntent_conf])
          · split at hEq
            · cases hEq; exact absurd hConf (by simp [detectIncompleteIntent_conf])
            · split at hEq
              · cases hEq; exact Or.inl (detectAddIntent_op _ _ _)
              · split at hEq
                · cases hEq; exact Or.inr (detectListIntent_op _ _ _)
                · exact Option.noConfusion hEq

theorem filter_eraseP_of (p q : Task → Bool) (l : Store)
    (hpq : ∀ x, p x = true → q x = false) :
    (l.eraseP p).filter q = l.filter q := by
  induction l with
  | nil => rfl
  | cons a l ih =>
    by_cases hp : p a = true
    · simp [List.eraseP_cons, hp, hpq a hp]
    · simp only [List.eraseP_cons, Bool.not_eq_true] at hp ⊢
      rw [hp]
      simp only [cond_false]
      by_cases hq : q a = true <;> simp [List.filter_cons, hq, ih]

theorem filter_modifyFirst (p q : Task → Bool) (y : Task) (l : Store)
    (hpq : ∀ x, p x = true → q x = false) (hy : q y = false) :
    (modifyFirst p (fun _ => y) l).filter q = l.filter q := by
  induction l with
  | nil => rfl
  | cons a l ih =>
    by_cases hp : p a = true
    · simp [modifyFirst, hp, List.filter_cons, hy, hpq a hp]
    · have hp' : p a = false := by simpa using hp
      by_cases hq : q a = true <;>
        simp [modifyFirst, hp', List.filter_cons, hq, ih]

theorem find_length_eraseP (p q : Task → Bool) (l : Store) (a : Task)
    (hf : l.find? p = some a) (hq : q a = true) :
    ((l.eraseP p).filter q).length + 1 = (l.filter q).length := by
  induction l with
  | nil => simp at hf
  | cons b l ih =>
    by_cases hp : p b = true
    · rw [List.find?_cons_of_pos _ hp] at hf
      cases hf
      simp [List.eraseP_cons, hp, List.filter_cons, hq]
    · rw [List.find?_cons_of_neg _ (by simp [hp])] at hf
      simp only [List.eraseP_cons, Bool.not_eq_true] at hp ⊢
      rw [hp]
      simp only [cond_false]
      by_cases hqb : q b = true <;> simp [List.filter_cons, hqb, ih hf]

theorem runCalls_eq_plain (ext : Ext) (uid : String) :
    ∀ (calls : List ToolCall) (seen : List (String × Params)) (store : Store),
      runCalls ext uid calls seen store =
        runPlain ext uid (dedupToolCalls calls seen) store := by
  intro calls
  induction calls with
  | nil => intro seen store; rfl
  | cons c rest ih =>
    intro seen store
    by_cases hs : List.contains seen (sigOf c) = true
    · simp only [runCalls, dedupToolCalls, hs, if_true, ih]
    · simp only [runCalls, dedupToolCalls, hs, if_false, Bool.false_eq_true, runPlain, ih]

theorem dedupToolCalls_not_seen :
    ∀ (calls : List ToolCall) (seen : List (String × Params)) (c : ToolCall),
      c ∈ dedupToolCalls calls seen → seen.contains (sigOf c) = false := by
  intro calls
  induction calls with
  | nil => intro seen c hc; simp [dedupToolCalls] at hc
  | cons a rest ih =>
    intro seen c hc
    unfold dedupToolCalls at hc
    by_cases hs : List.contains seen (sigOf a) = true
    · rw [if_pos hs] at hc
      exact ih seen c hc
    · rw [if_neg hs] at hc
      rcases List.mem_cons.mp hc with h1 | h2
      · subst h1; simpa using hs
      · have h3 := ih _ _ h2
        simp only [List.contains_cons, Bool.or_eq_false_iff] at h3
        exact h3.2

theorem dedupToolCalls_pairwise :
    ∀ (calls : List ToolCall) (seen : List (String × Params)),
      (dedupToolCalls calls seen).Pairwise (fun a b => sigOf a ≠ sigOf b) := by
  intro calls
  induction calls with
  | nil => intro seen; simp [dedupToolCalls]
  | cons a rest ih =>
    intro seen
    unfold dedupToolCalls
    by_cases hs : List.contains seen (sigOf a) = true
    · rw [if_pos hs]; exact ih seen
    · rw [if_neg hs]
      refine List.Pairwise.cons ?_ (ih _)
      intro b hb hab
      have h3 := dedupToolCalls_not_seen _ _ _ hb
      simp only [List.contains_cons, Bool.or_eq_false_iff] at h3
      rw [hab] at h3
      simp at h3

theorem dedupToolCalls_sublist :
    ∀ (calls : List ToolCall) (seen : List (String × Params)),
      (dedupToolCalls calls seen).Sublist calls := by
  intro calls
  induction calls with
  | nil => intro seen; simp [dedupToolCalls]
  | cons a rest ih =>
    intro seen
    unfold dedupToolCalls
    by_cases hs : List.contains seen (sigOf a) = true
    · rw [if_pos hs]; exact (ih seen).cons a
    · rw [if_neg hs]; exact (ih _).cons₂ a

theorem dedupToolCalls_find? :
    ∀ (calls : List ToolCall) (seen : List (String × Params)) (s : String × Params),
      seen.contains s = false →
      (dedupToolCalls calls seen).find? (fun x => decide (sigOf x = s)) =
        calls.find? (fun x => decide (sigOf x = s)) := by
  intro calls
  induction calls with
  | nil => intro seen s _; rfl
  | cons a rest ih =>
    intro seen s hns
    unfold dedupToolCalls
    by_cases hs : List.contains seen (sigOf a) = true
    · rw [if_pos hs]
      have hne : sigOf a ≠ s := by
        intro hEq
        rw [hEq] at hs
        rw [hns] at hs
        exact Bool.false_ne_true hs
      rw [List.find?_cons_of_neg _ (by simpa using hne)]
      exact ih seen s hns
    · rw [if_neg hs]
      by_cases hEq : sigOf a = s
      · rw [List.find?_cons_of_pos _ (by simpa using hEq),
          List.find?_cons_of_pos _ (by simpa using hEq)]
      · rw [List.find?_cons_of_neg _ (by simpa using hEq),
          List.find?_cons_of_neg _ (by simpa using hEq)]
        refine ih _ s ?_
        simp only [List.contains_cons, Bool.or_eq_false_iff]
        refine ⟨?_, hns⟩
        simpa using fun hh => hEq (by simpa using hh.symm)

theorem checkPendingConfirmation_op (h : List ChatMsg) (pc : PendingConf) :
    checkPendingConfirmation h = some pc →
    pc.operation = "delete" ∨ pc.operation = "update" ∨ pc.operation = "incomplete" ∨
    pc.operation = "complete" := by
  unfold checkPendingConfirmation
  intro hEq
  dsimp only at hEq
  repeat' split at hEq
  all_goals
    first
      | exact Option.noConfusion hEq
      | (injection hEq with hEq2; subst hEq2;
         first
           | exact Or.inl rfl
           | exact Or.inr (Or.inl rfl)
           | exact Or.inr (Or.inr (Or.inl rfl))
           | exact Or.inr (Or.inr (Or.inr rfl)))

theorem find?_append_pv (p : (String × PVal) → Bool) :
    ∀ (l1 l2 : Params),
      (l1 ++ l2).find? p =
        (match l1.find? p with
         | some x => some x
         | none => l2.find? p) := by
  intro l1 l2
  induction l1 with
  | nil => rfl
  | cons a rest ih =>
    by_cases ha : p a = true
    · rw [List.cons_append, List.find?_cons_of_pos _ ha, List.find?_cons_of_pos _ ha]
    · rw [List.cons_append, List.find?_cons_of_neg _ (by simp [ha]),
        List.find?_cons_of_neg _ (by simp [ha]), ih]

theorem find?_map_overwrite (k : String) (v : PVal) :
    ∀ ps : Params, ps.any (fun kv => kv.1 = k) = true →
      (ps.map (fun kv => if kv.1 = k then (k, v) else kv)).find?
        (fun kv => kv.1 = k) = some (k, v) := by
  intro ps
  induction ps with
  | nil => intro h; simp at h
  | cons a rest ih =>
    intro h
    by_cases ha : a.1 = k
    · simp only [List.map_cons, if_pos ha]
      rw [List.find?_cons_of_pos _ (by simp)]
    · simp only [List.map_cons, if_neg ha]
      rw [List.find?_cons_of_neg _ (by simp [ha])]
      exact ih (by simpa [List.any_cons, ha] using h)

theorem find?_map_overwrite_ne (k k' : String) (v : PVal) (hk : k ≠ k') :
    ∀ ps : Params,
      (ps.map (fun kv => if kv.1 = k' then (k', v) else kv)).find?
          (fun kv => kv.1 = k) =
        ps.find? (fun kv => kv.1 = k) := by
  intro ps
  induction ps with
  | nil => rfl
  | cons a rest ih =>
    simp only [List.map_cons]
    by_cases ha : a.1 = k
    · have ha' : ¬(a.1 = k') := by rw [ha]; exact hk
      rw [if_neg ha']
      rw [List.find?_cons_of_pos _ (by simp [ha]), List.find?_cons_of_pos _ (by simp [ha])]
    · by_cases ha2 : a.1 = k'
      · rw [if_pos ha2]
        rw [List.find?_cons_of_neg _ (by simp [Ne.symm hk]),
          List.find?_cons_of_neg _ (by simp [ha]), ih]
      · rw [if_neg ha2]
        rw [List.find?_cons_of_neg _ (by simp [ha]),
          List.find?_cons_of_neg _ (by simp [ha]), ih]

theorem any_key_map_overwrite (k k' : String) (v : PVal) :
    ∀ ps : Params,
      (ps.map (fun kv => if kv.1 = k' then (k', v) else kv)).any
          (fun kv => kv.1 = k) =
        ps.any (fun kv => kv.1 = k) := by
  intro ps
  induction ps with
  | nil => rfl
  | cons a rest ih =>
    simp only [List.map_cons, List.any_cons, ih]
    by_cases ha : a.1 = k'
    · rw [if_pos ha]
      dsimp only
      rw [ha]
    · rw [if_neg ha]

theorem pget_eq_none_of_phas_false (ps : Params) (k : String)
    (h : phas ps k = false) : pget ps k = none := by
  unfold phas at h
  unfold pget
  have hnone : ps.find? (fun kv => kv.1 = k) = none := by
    rw [List.find?_eq_none]
    intro x hx
    simp only [decide_eq_true_eq]
    intro hk
    have hany : ps.any (fun kv => kv.1 = k) = true :=
      List.any_eq_true.mpr ⟨x, hx, by simp [hk]⟩
    rw [h] at hany
    exact Bool.false_ne_true hany
  rw [hnone]
  rfl

theorem pget_pset_self (ps : Params) (k : String) (v : PVal) :
    pget (pset ps k v) k = some v := by
  unfold pset
  by_cases hin : ps.any (fun kv => kv.1 = k) = true
  · rw [if_pos hin]
    unfold pget
    rw [find?_map_overwrite k v ps hin]
    rfl
  · rw [if_neg hin]
    unfold pget
    rw [find?_append_pv]
    have hnone : ps.find? (fun kv => kv.1 = k) = none := by
      rw [List.find?_eq_none]
      intro x hx
      simp only [decide_eq_true_eq]
      intro hk
      exact hin (List.any_eq_true.mpr ⟨x, hx, by simp [hk]⟩)
    rw [hnone]
    rw [List.find?_cons_of_pos _ (by simp)]
    rfl

theorem pget_pset_ne (ps : Params) (k k' : String) (v : PVal) (hk : k ≠ k') :
    pget (pset ps k' v) k = pget ps k := by
  unfold pset
  by_cases hin : ps.any (fun kv => kv.1 = k') = true
  · rw [if_pos hin]
    unfold pget
    rw [find?_map_overwrite_ne k k' v hk ps]
  · rw [if_neg hin]
    unfold pget
    rw [find?_append_pv]
    cases hf : ps.find? (fun kv => kv.1 = k) with
    | some x => rfl
    | none =>
      rw [List.find?_cons_of_neg _ (by simp [Ne.symm hk])]
      rfl

theorem phas_pset_ne (ps : Params) (k k' : String) (v : PVal) (hk : k ≠ k') :
    phas (pset ps k' v) k = phas ps k := by
  unfold pset phas
  by_cases hin : ps.any (fun kv => kv.1 = k') = true
  · rw [if_pos hin]
    exact any_key_map_overwrite k k' v ps
  · rw [if_neg hin]
    rw [List.any_append]
    simp [Ne.symm hk]

theorem containsList_of_startsWith (l n : List Char)
    (h : startsWithList l n = true) : containsList l n = true := by
  cases l with
  | nil =>
    cases n with
    | nil => rfl
    | cons p ps => exact absurd h (by simp [startsWithList])
  | cons a cs =>
    unfold containsList
    rw [h]
    rfl

theorem containsList_cons_needle (c : Char) (n : List Char) :
    ∀ l : List Char, containsList l (c :: n) = true → containsList l n = true := by
  intro l
  induction l with
  | nil => intro h; exact absurd h (by simp [containsList])
  | cons a cs ih =>
    intro h
    unfold containsList at h ⊢
    rcases (Bool.or_eq_true _ _).mp h with h1 | h2
    · simp only [startsWithList, Bool.and_eq_true] at h1
      rw [containsList_of_startsWith cs n h1.2, Bool.or_true]
    · rw [ih h2, Bool.or_true]

theorem strContains_incomplete (s : String)
    (h : strContains s "incomplete" = true) : strContains s "complete" = true := by
  unfold strContains at h ⊢
  have hdata : ("incomplete".data) = 'i' :: 'n' :: "complete".data := rfl
  rw [hdata] at h
  exact containsList_cons_needle 'n' _ _ (containsList_cons_needle 'i' _ _ h)

theorem length_insertLe {α : Type} (le : α → α → Bool) (x : α) :
    ∀ l : List α, (insertLe le x l).length = l.length + 1 := by
  intro l
  induction l with
  | nil => rfl
  | cons y ys ih =>
    unfold insertLe
    split
    · rfl
    · simp only [List.length_cons, ih]

theorem length_pySorted {α : Type} (le : α → α → Bool) :
    ∀ l : List α, (pySorted le l).length = l.length := by
  intro l
  induction l with
  | nil => rfl
  | cons x xs ih =>
    unfold pySorted
    rw [length_insertLe, ih]
    rfl

theorem stripList_replicate_a (n : Nat) :
    stripList (List.replicate n 'a') = List.replicate n 'a' := by
  unfold stripList
  cases n with
  | zero => rfl
  | succ k =>
    rw [List.replicate_succ, List.dropWhile_cons_of_neg (by decide), ← List.replicate_succ,
      List.reverse_replicate, List.replicate_succ,
      List.dropWhile_cons_of_neg (by decide), ← List.replicate_succ,
      List.reverse_replicate]

/-! ### Claim theorems -/

/-- C2: A first-detection mutating intent always carries
`needs_confirmation = true`: whenever detect_intent returns a mutating
operation with `needs_confirmation = false`, the transcript holds a pending
confirmation question and the current message is a short (at most 3-word)
affirmative reply re-emitting that pending operation; and a reply longer
than 3 words is never classified as a yes or a no. -/
theorem C2_mutating_needs_confirmation (m : String) (h : List ChatMsg) (i : Intent)
    (hDet : detectIntent m h = some i)
    (hMut : isMutatingOp i.operation = true) :
    (i.needs_confirmation = false →
      ∃ pc, checkPendingConfirmation h = some pc ∧
        isConfirmationResponse (normMsg m) true = true ∧
        i.operation = pc.operation ∧ wordCount (normMsg m) ≤ 3 ∧
        containsAnyOf (normMsg m) confirmYes = true) ∧
    (3 < wordCount (normMsg m) →
      isConfirmationResponse (normMsg m) true = false ∧
      isConfirmationResponse (normMsg m) false = false) := by
  constructor
  · intro hConf
    unfold detectIntent at hDet
    dsimp only at hDet
    cases hP : checkPendingConfirmation h with
    | none =>
      rw [hP] at hDet
      dsimp only at hDet
      rcases detectIntentRest_unconfirmed m (normMsg m) h i hDet hConf with ha | ha <;>
        · rw [ha] at hMut
          exact absurd hMut (by decide)
    | some pc =>
      rw [hP] at hDet
      dsimp only at hDet
      by_cases hY : isConfirmationResponse (normMsg m) true = true
      · rw [if_pos hY] at hDet
        have hEq := Option.some.inj hDet
        refine ⟨pc, rfl, hY, ?_, ?_, ?_⟩
        · rw [← hEq]
        · by_cases hw : wordCount (normMsg m) ≤ 3
          · exact hw
          · exfalso
            unfold isConfirmationResponse at hY
            dsimp only at hY
            rw [if_neg hw] at hY
            exact Bool.false_ne_true hY
        · unfold isConfirmationResponse at hY
          dsimp only at hY
          by_cases hw : wordCount (normMsg m) ≤ 3
          · rw [if_pos hw] at hY
            exact hY
          · rw [if_neg hw] at hY
            exact absurd hY Bool.false_ne_true
      · rw [if_neg hY] at hDet
        cases hN : isConfirmationResponse (normMsg m) false with
        | true =>
          rw [if_pos hN] at hDet
          exact Option.noConfusion hDet
        | false =>
          rw [if_neg (by simp [hN])] at hDet
          rcases detectIntentRest_unconfirmed m (normMsg m) h i hDet hConf with ha | ha <;>
            · rw [ha] at hMut
              exact absurd hMut (by decide)
  · intro hw
    have hn : ¬ wordCount (normMsg m) ≤ 3 := by omega
    constructor <;>
      · unfold isConfirmationResponse
        dsimp only
        rw [if_neg hn]

theorem C2_mutating_needs_confirmation_witness :
    ∃ pc, checkPendingConfirmation histC2 = some pc ∧
      isConfirmationResponse (normMsg "yes") true = true ∧
      Intent.operation
        { operation := "delete", task_id := some 5, task_title := none,
          params := [], needs_confirmation := false } = pc.operation ∧
      wordCount (normMsg "yes") ≤ 3 ∧
      containsAnyOf (normMsg "yes") confirmYes = true :=
  (C2_mutating_needs_confirmation "yes" histC2
      { operation := "delete", task_id := some 5, task_title := none, params := [],
        needs_confirmation := false } (by decide) (by decide)).1 rfl

/-- C3: A user-scoped miss (no task with the id owned by the caller,
including ids owned by someone else) makes the update and delete store
operations fail with the generic "Task not found" and leave the store
unchanged, and both operations never touch another user's rows (corrected:
update_task checks "at least one field" before the ownership lookup, so a
no-field update on a missing task reports the field error instead of
"Task not found"). -/
theorem C3_user_scoping (store : Store) (uid : String) (tid : Nat)
    (ps : UpdateTaskParams) :
    ((∀ t ∈ store, ¬(t.id = tid ∧ t.user_id = uid)) →
      delete_task store uid tid = (.error "Task not found", store)) ∧
    ((∀ t ∈ store, ¬(t.id = ps.task_id ∧ t.user_id = ps.user_id)) →
      (ps.title.isNone && ps.description.isNone && ps.priority.isNone) = false →
      update_task store ps = (.error "Task not found", store)) ∧
    ((delete_task store uid tid).2.filter (fun t => t.user_id ≠ uid) =
      store.filter (fun t => t.user_id ≠ uid)) ∧
    ((update_task store ps).2.filter (fun t => t.user_id ≠ ps.user_id) =
      store.filter (fun t => t.user_id ≠ ps.user_id)) := by
  refine ⟨?_, ?_, ?_, ?_⟩
  · intro hno
    have hfind : store.find? (fun t => t.id = tid && t.user_id = uid) = none := by
      rw [List.find?_eq_none]
      intro t ht
      simp only [Bool.and_eq_true, decide_eq_true_eq]
      exact fun hc => hno t ht ⟨hc.1, hc.2⟩
    unfold delete_task
    rw [hfind]
  · intro hno hfield
    have hfind : store.find?
        (fun t => t.id = ps.task_id && t.user_id = ps.user_id) = none := by
      rw [List.find?_eq_none]
      intro t ht
      simp only [Bool.and_eq_true, decide_eq_true_eq]
      exact fun hc => hno t ht ⟨hc.1, hc.2⟩
    unfold update_task
    rw [if_neg (by simp [hfield]), hfind]
  · unfold delete_task
    cases hf : store.find? (fun t => t.id = tid && t.user_id = uid) with
    | none => rfl
    | some t =>
      dsimp only
      refine filter_eraseP_of _ _ _ ?_
      intro x hx
      simp only [Bool.and_eq_true, decide_eq_true_eq] at hx
      simp [hx.2]
  · unfold update_task
    by_cases hb : (ps.title.isNone && ps.description.isNone && ps.priority.isNone) = true
    · rw [if_pos hb]
    · rw [if_neg hb]
      cases hf : store.find?
          (fun t => t.id = ps.task_id && t.user_id = ps.user_id) with
      | none => rfl
      | some t =>
        dsimp only
        refine filter_modifyFirst _ _ _ _ ?_ ?_
        · intro x hx
          simp only [Bool.and_eq_true, decide_eq_true_eq] at hx
          simp [hx.2]
        · have hp := List.find?_some hf
          simp only [Bool.and_eq_true, decide_eq_true_eq] at hp
          simp [hp.2]

theorem C3_user_scoping_witness :
    delete_task [{ id := 1, user_id := "u2", title := "x" }] "u1" 1 =
      (.error "Task not found", [{ id := 1, user_id := "u2", title := "x" }]) ∧
    update_task [{ id := 1, user_id := "u2", title := "x" }]
        { user_id := "u1", task_id := 1, title := some "y" } =
      (.error "Task not found", [{ id := 1, user_id := "u2", title := "x" }]) :=
  ⟨(C3_user_scoping [{ id := 1, user_id := "u2", title := "x" }] "u1" 1
      { user_id := "u1", task_id := 1, title := some "y" }).1 (by decide),
   (C3_user_scoping [{ id := 1, user_id := "u2", title := "x" }] "u1" 1
      { user_id := "u1", task_id := 1, title := some "y" }).2.1 (by decide) (by decide)⟩

/-- C3 counterexample: a no-field update on a task id the caller does not
own fails with the at-least-one-field error, not the generic
"Task not found" the claim prescribes for every such miss. -/
theorem C3_counterexample :
    (update_task [{ id := 1, user_id := "u2", title := "x" }]
        { user_id := "u1", task_id := 1 }).1 =
      .error "At least one field (title, description, or priority) must be provided" := rfl

/-- C4: Within one chat turn the executor never dispatches two calls with
the same signature (tool name plus parameters without user_id): the run
equals a plain run of the deduplicated call list, in which signatures are
pairwise distinct, which is a subsequence of the proposed calls, and which
retains exactly the first occurrence of every proposed call's signature. -/
theorem C4_duplicate_suppression (ext : Ext) (uid : String) (calls : List ToolCall)
    (store : Store) :
    runCalls ext uid calls [] store =
      runPlain ext uid (dedupToolCalls calls []) store ∧
    (dedupToolCalls calls []).Pairwise (fun a b => sigOf a ≠ sigOf b) ∧
    (dedupToolCalls calls []).Sublist calls ∧
    (∀ c ∈ calls,
      (dedupToolCalls calls []).find? (fun x => decide (sigOf x = sigOf c)) =
        calls.find? (fun x => decide (sigOf x = sigOf c))) :=
  ⟨runCalls_eq_plain ext uid calls [] store, dedupToolCalls_pairwise calls [],
   dedupToolCalls_sublist calls [], fun c _ => dedupToolCalls_find? calls [] (sigOf c) rfl⟩

theorem C4_duplicate_suppression_witness :
    (dedupToolCalls callsC4 []).Pairwise (fun a b => sigOf a ≠ sigOf b) ∧
    (dedupToolCalls callsC4 []).find? (fun x => decide (sigOf x = sigOf cDelC4dup)) =
      callsC4.find? (fun x => decide (sigOf x = sigOf cDelC4dup)) :=
  ⟨(C4_duplicate_suppression extTest "u1" callsC4 []).2.1,
   (C4_duplicate_suppression extTest "u1" callsC4 []).2.2.2 cDelC4dup (by decide)⟩

/-- C6: "show all tasks" yields a list intent with no confirmation whenever
the transcript triggers neither the pending-confirmation step nor the
follow-up scan (corrected: certain prior assistant turns reroute the
message into a mutating follow-up, so the claim's "regardless of what the
prior assistant turns contain" is false). -/
theorem C6_show_all_tasks (h : List ChatMsg)
    (hPend : checkPendingConfirmation h = none)
    (hFollow : checkFollowUpResponse "show all tasks" (normMsg "show all tasks") h = none) :
    detectIntent "show all tasks" h =
      some { operation := "list", params := [("status", .s "all")],
             needs_confirmation := false } := by
  have hL : ∀ hh : List ChatMsg,
      detectListIntent "show all tasks" (normMsg "show all tasks") hh =
        { operation := "list", params := [("status", .s "all")],
          needs_confirmation := false } := by
    intro hh
    unfold detectListIntent
    decide
  have hT : explicitTitleFollowUp "show all tasks" = none := by decide
  have h2 : matchesAny "show all tasks" updatePatterns = false := by decide
  have h3 : matchesAny "show all tasks" deletePatterns = false := by decide
  have h4 : matchesAny "show all tasks" completePatterns = false := by decide
  have h5 : matchesAny "show all tasks" incompletePatterns = false := by decide
  have h6 : matchesAny "show all tasks" addPatterns = false := by decide
  have h7 : matchesAny "show all tasks" listPatterns = true := by decide
  unfold detectIntent
  dsimp only
  rw [hPend]
  dsimp only
  unfold detectIntentRest
  rw [hFollow]
  dsimp only
  rw [hT]
  dsimp only
  simp only [h2, h3, h4, h5, h6, h7, Bool.false_eq_true, if_false, eq_self_iff_true,
    if_true]
  rw [hL h]

theorem C6_show_all_tasks_witness :
    detectIntent "show all tasks" [] =
      some { operation := "list", params := [("status", .s "all")],
             needs_confirmation := false } :=
  C6_show_all_tasks [] (by decide) (by decide)

/-- C6 counterexample: after the assistant asks "Which task do you want to
delete?", the very same "show all tasks" message is hijacked by the
follow-up scan into a delete intent titled "show all". -/
theorem C6_counterexample :
    detectIntent "show all tasks"
      [{ role := "assistant", content := "Which task do you want to delete?" }] =
      some { operation := "delete", task_id := none, task_title := some "show all",
             params := [], needs_confirmation := true } := by decide

/-- C8: In update parameter extraction, a complete/done phrase with no
"incomplete" token sets the completed flag true, and an
incomplete/pending/undone phrase sets it false only when the substring
"complete" is absent; since "incomplete" contains "complete" as a
substring, the false branch can never fire on a text containing
"incomplete" — "mark as incomplete" itself sets nothing, and false comes
only from the "pending"/"undone"/"not done" phrasings (corrected). -/
theorem C8_completed_extraction (ml : String) :
    (reSearch incompleteFullPat ml = true → strContains ml "complete" = false →
      extractCompleted ml = some false) ∧
    (reSearch completeFullPat ml = true → strContains ml "incomplete" = false →
      (reSearch incompleteFullPat ml = false ∨ strContains ml "complete" = true) →
      extractCompleted ml = some true) ∧
    (extractCompleted ml = some false → strContains ml "incomplete" = false) := by
  refine ⟨?_, ?_, ?_⟩
  · intro h1 h2
    unfold extractCompleted
    rw [h1, h2]
    rfl
  · intro h1 h2 h3
    have hfirst : (reSearch incompleteFullPat ml && !strContains ml "complete") = false := by
      rcases h3 with h3 | h3
      · rw [h3]
        rfl
      · rw [h3]
        simp
    unfold extractCompleted
    rw [hfirst, h1, h2]
    rfl
  · intro hres
    by_cases hc : strContains ml "incomplete" = true
    · exfalso
      have hcc : strContains ml "complete" = true := strContains_incomplete ml hc
      unfold extractCompleted at hres
      rw [hcc, hc] at hres
      simp at hres
    · simpa using hc

theorem C8_completed_extraction_witness :
    extractCompleted "mark as pending" = some false ∧
    extractCompleted "mark it as complete" = some true :=
  ⟨(C8_completed_extraction "mark as pending").1 (by decide) (by decide),
   (C8_completed_extraction "mark it as complete").2.1 (by decide) (by decide)
     (Or.inr (by decide))⟩

/-- C8 counterexample: "mark as incomplete" sets nothing — the guard
rejecting texts containing "complete" also rejects every text containing
"incomplete", so the update's params carry no completed key at all. -/
theorem C8_counterexample :
    extractCompleted "mark as incomplete" = none ∧
    (detectIntent "update task 3 title to buy fruits, mark as incomplete" []).map
      Intent.params = some [("title", .s "buy fruits")] := by decide

/-- C9: A message longer than 10000 characters after stripping surrounding
whitespace is rejected with HTTP 400 before the conversation is created or
resumed and before any store access: the store is unchanged, nothing is
appended to the transcript, and the conversation record is not touched. -/
theorem C9_message_limit (ext : Ext) (pathUser jwtUser m : String) (h : List ChatMsg)
    (store : Store) (hLen : 10000 < (pyStrip m).length) :
    chatTurn ext pathUser jwtUser m h store =
      { out := .httpE 400 "Message too long (max 10000 characters)", store := store,
        added := [], convTouched := false } := by
  unfold chatTurn
  dsimp only
  rw [if_pos hLen]

theorem C9_message_limit_witness :
    chatTurn extTest "u" "u" (String.mk (List.replicate 10001 'a')) [] [] =
      { out := .httpE 400 "Message too long (max 10000 characters)", store := [],
        added := [], convTouched := false } :=
  C9_message_limit extTest "u" "u" (String.mk (List.replicate 10001 'a')) [] [] (by
    show 10000 < (pyStrip (String.mk (List.replicate 10001 'a'))).length
    unfold pyStrip
    rw [stripList_replicate_a]
    show 10000 < (List.replicate 10001 'a').length
    rw [List.length_replicate]
    omega)

/-- C10: With a pending confirmation on record, any reply of at most three
words containing an affirmative keyword as a substring is classified as
"yes" — the affirmative set is checked before the negative one, so a reply
that also contains a negative keyword ("ok no"), or contains the keyword
only inside a longer word ("yesterday"), still re-emits the pending intent
with `needs_confirmation = false`, ready to execute. -/
theorem C10_affirmative_first (m : String) (h : List ChatMsg) (pc : PendingConf)
    (hP : checkPendingConfirmation h = some pc)
    (hW : wordCount (normMsg m) ≤ 3)
    (hY : containsAnyOf (normMsg m) confirmYes = true) :
    detectIntent m h =
      some { operation := pc.operation, task_id := pc.task_id,
             task_title := pc.task_title, params := pc.params,
             needs_confirmation := false } := by
  have hyes : isConfirmationResponse (normMsg m) true = true := by
    unfold isConfirmationResponse
    dsimp only
    rw [if_pos hW]
    exact hY
  unfold detectIntent
  dsimp only
  rw [hP]
  dsimp only
  rw [if_pos hyes]

theorem C10_affirmative_first_witness :
    detectIntent "ok no" histC10 =
      some { operation := "delete", task_id := some 7, task_title := none,
             params := [], needs_confirmation := false } ∧
    detectIntent "yesterday" histC10 =
      some { operation := "delete", task_id := some 7, task_title := none,
             params := [], needs_confirmation := false } :=
  ⟨C10_affirmative_first "ok no" histC10 pcC10 (by decide) (by decide) (by decide),
   C10_affirmative_first "yesterday" histC10 pcC10 (by decide) (by decide) (by decide)⟩

theorem phas_dueNormA (ext : Ext) (ps : Params) (k : String) (hk : k ≠ "due_date") :
    phas (dueNormA ext ps) k = phas ps k := by
  unfold dueNormA
  repeat' split
  all_goals first
    | rfl
    | rw [phas_pset_ne _ _ _ _ hk]

theorem enhance_add_red (ext : Ext) (ps : Params) (hp : phas ps "priority" = false) :
    enhance_tool_parameters ext "add_task" ps =
      (let sg := suggest_priority_from_keywords ((pgetStr ps "title").getD "")
         ((pgetStr ps "description").getD "")
       let psS := if sg ≠ "medium" then pset (dueNormA ext ps) "priority" (.s sg)
         else dueNormA ext ps
       match validateWarning ext "add_task" ps psS with
       | some w => pset psS "_validation_warning" (.s w)
       | none => psS) := by
  unfold enhance_tool_parameters
  rw [hp]
  rfl

theorem enhance_add_priority_val (ext : Ext) (ps : Params)
    (hp : phas ps "priority" = false) :
    pget (enhance_tool_parameters ext "add_task" ps) "priority" =
      (if suggest_priority_from_keywords ((pgetStr ps "title").getD "")
          ((pgetStr ps "description").getD "") = "medium" then none
       else some (.s (suggest_priority_from_keywords ((pgetStr ps "title").getD "")
          ((pgetStr ps "description").getD "")))) := by
  rw [enhance_add_red ext ps hp]
  dsimp only
  have hDg : pget (dueNormA ext ps) "priority" = none :=
    pget_eq_none_of_phas_false _ _ (by rw [phas_dueNormA ext ps _ (by decide)]; exact hp)
  by_cases hsg : suggest_priority_from_keywords ((pgetStr ps "title").getD "")
      ((pgetStr ps "description").getD "") = "medium"
  · rw [if_neg (not_not_intro hsg), if_pos hsg]
    split
    · rw [pget_pset_ne _ _ _ _ (by decide)]
      exact hDg
    · exact hDg
  · rw [if_pos hsg, if_neg hsg]
    split
    · rw [pget_pset_ne _ _ _ _ (by decide), pget_pset_self]
    · rw [pget_pset_self]

theorem enhance_add_priority_has (ext : Ext) (ps : Params)
    (hp : phas ps "priority" = false)
    (hsg : suggest_priority_from_keywords ((pgetStr ps "title").getD "")
        ((pgetStr ps "description").getD "") = "medium") :
    phas (enhance_tool_parameters ext "add_task" ps) "priority" = false := by
  rw [enhance_add_red ext ps hp]
  dsimp only
  rw [if_neg (not_not_intro hsg)]
  have hD : phas (dueNormA ext ps) "priority" = false := by
    rw [phas_dueNormA ext ps _ (by decide)]
    exact hp
  split
  · rw [phas_pset_ne _ _ _ _ (by decide)]
    exact hD
  · exact hD

/-- C7: The intent detector attaches no priority to an add, and the
runner's enhancement step inserts one only from a matched keyword: a
title/description containing "urgent" yields exactly "high", and with no
priority keyword the suggestion is "medium", which is deliberately not
inserted, leaving the params without a priority key (corrected: the claim's
"no default value is inserted anywhere on the path to the store call" is
false — the chat executor defaults a missing priority to "medium" when it
builds AddTaskParams). -/
theorem C7_priority_extraction (ext : Ext) (ps : Params) (m ml : String)
    (h : List ChatMsg) (hp : phas ps "priority" = false) :
    (strContains (addText ps) "urgent" = true →
      pget (enhance_tool_parameters ext "add_task" ps) "priority" =
        some (.s "high")) ∧
    (containsAnyOf (addText ps) highKeywords = false →
      containsAnyOf (addText ps) lowKeywords = false →
      phas (enhance_tool_parameters ext "add_task" ps) "priority" = false) ∧
    phas (detectAddIntent m ml h).params "priority" = false := by
  refine ⟨?_, ?_, ?_⟩
  · intro hu
    unfold addText at hu
    have hc : containsAnyOf (lowerStr (((pgetStr ps "title").getD "") ++ " " ++
        ((pgetStr ps "description").getD ""))) highKeywords = true := by
      unfold containsAnyOf
      rw [List.any_eq_true]
      exact ⟨"urgent", by decide, hu⟩
    have hsg : suggest_priority_from_keywords ((pgetStr ps "title").getD "")
        ((pgetStr ps "description").getD "") = "high" := by
      unfold suggest_priority_from_keywords
      dsimp only
      rw [if_pos hc]
    rw [enhance_add_priority_val ext ps hp, hsg, if_neg (by decide)]
  · intro hHigh hLow
    unfold addText at hHigh hLow
    have hsg : suggest_priority_from_keywords ((pgetStr ps "title").getD "")
        ((pgetStr ps "description").getD "") = "medium" := by
      unfold suggest_priority_from_keywords
      dsimp only
      rw [if_neg (by simp [hHigh]), if_neg (by simp [hLow])]
    exact enhance_add_priority_has ext ps hp hsg
  · unfold detectAddIntent
    dsimp only
    repeat' split
    all_goals rfl

theorem C7_priority_extraction_witness :
    pget (enhance_tool_parameters extTest "add_task" [("title", .s "urgent report")])
        "priority" = some (.s "high") ∧
    phas (enhance_tool_parameters extTest "add_task" [("title", .s "buy milk")])
        "priority" = false :=
  ⟨(C7_priority_extraction extTest [("title", .s "urgent report")] "m" "ml" []
      (by decide)).1 (by decide),
   (C7_priority_extraction extTest [("title", .s "buy milk")] "m" "ml" []
      (by decide)).2.1 (by decide) (by decide)⟩

/-- C7 counterexample: the add_task executor of routes/chat.py defaults a
missing priority to "medium" on its way to the store call, so a params
mapping with no priority key still creates a medium-priority row. -/
theorem C7_counterexample :
    phas cAddC7.params "priority" = false ∧
    addCallPriority cAddC7.params = "medium" ∧
    (execOne extTest "u1" [] cAddC7).2.2 =
      [{ id := 1, user_id := "u1", title := "buy milk", description := none,
         priority := "medium", completed := false, due_date := none,
         created_at := 1 }] := by decide

theorem chatTurn_delete5_turn1 (ext : Ext) (store : Store) :
    chatTurn ext "u1" "u1" "delete task 5" [] store =
      { out := .msgOut (deleteConfirmMsg " #5") [], store := store,
        added := [{ role := "user", content := "delete task 5" },
                  { role := "assistant", content := deleteConfirmMsg " #5" }],
        convTouched := true } := by
  have hd : detectIntent (pyStrip "delete task 5") [] =
      some { operation := "delete", task_id := some 5, task_title := none,
             params := [], needs_confirmation := true } := by decide
  unfold chatTurn
  dsimp only
  rw [hd]
  rfl

theorem chatTurn_yes_red (ext : Ext) (store : Store) :
    chatTurn ext "u1" "u1" "yes" histC1 store =
      (match runCalls ext "u1" [cDel5] [] store with
       | (executed, errs, store') =>
         { out := .msgOut (synthResponse executed errs) executed, store := store',
           added := [{ role := "user", content := "yes" },
                     { role := "assistant", content := synthResponse executed errs }],
           convTouched := true }) := by
  have hd : detectIntent (pyStrip "yes") histC1 =
      some { operation := "delete", task_id := some 5, task_title := none,
             params := [], needs_confirmation := false } := by decide
  unfold chatTurn
  dsimp only
  rw [hd]
  rfl

theorem runCalls_cDel5_some (ext : Ext) (store : Store) (t : Task)
    (hf : store.find? (fun x => x.id = 5 && x.user_id = "u1") = some t) :
    runCalls ext "u1" [cDel5] [] store =
      ([delExecOf t], [],
        store.eraseP (fun x => x.id = 5 && x.user_id = "u1")) := by
  have h1 : delete_task store "u1" 5 =
      (.ok (t.id, t.title), store.eraseP (fun x => x.id = 5 && x.user_id = "u1")) := by
    unfold delete_task
    rw [hf]
  have h2 : execOne ext "u1" store cDel5 =
      (match delete_task store "u1" 5 with
       | (.ok r, store') =>
         (some { tool := "delete_task", params := [("task_id", PVal.num 5)],
                 res := ExecRes.delR r.1 r.2 },
          ([] : List (String × String)), store')
       | (.error e, store') =>
         (some { tool := "delete_task", params := [("task_id", PVal.num 5)],
                 res := ExecRes.failed e },
          [("delete_task", e)], store')) := rfl
  rw [h1] at h2
  have h3 : runCalls ext "u1" [cDel5] [] store =
      (match execOne ext "u1" store cDel5 with
       | (e, errs1, store1) =>
         ((match e with
           | some x => [x]
           | none => ([] : List ToolExec)),
          errs1 ++ ([] : List (String × String)), store1)) := rfl
  rw [h2] at h3
  rw [h3]
  rfl

theorem runCalls_cDel5_none (ext : Ext) (store : Store)
    (hf : store.find? (fun x => x.id = 5 && x.user_id = "u1") = none) :
    runCalls ext "u1" [cDel5] [] store =
      ([delFailExec], [("delete_task", "Task not found")], store) := by
  have h1 : delete_task store "u1" 5 = (.error "Task not found", store) := by
    unfold delete_task
    rw [hf]
  have h2 : execOne ext "u1" store cDel5 =
      (match delete_task store "u1" 5 with
       | (.ok r, store') =>
         (some { tool := "delete_task", params := [("task_id", PVal.num 5)],
                 res := ExecRes.delR r.1 r.2 },
          ([] : List (String × String)), store')
       | (.error e, store') =>
         (some { tool := "delete_task", params := [("task_id", PVal.num 5)],
                 res := ExecRes.failed e },
          [("delete_task", e)], store')) := rfl
  rw [h1] at h2
  have h3 : runCalls ext "u1" [cDel5] [] store =
      (match execOne ext "u1" store cDel5 with
       | (e, errs1, store1) =>
         ((match e with
           | some x => [x]
           | none => ([] : List ToolExec)),
          errs1 ++ ([] : List (String × String)), store1)) := rfl
  rw [h2] at h3
  rw [h3]
  rfl

/-- C1: On "delete task 5" with an empty transcript the engine replies with
the delete confirmation question naming "5" and executes nothing, leaving
the store untouched; on the follow-up "yes" it executes exactly one
delete_task call with task_id 5, and if user u1 owned task 5 their task
count decreases by exactly one. -/
theorem C1_delete_task_5 (ext : Ext) (store : Store) :
    chatTurn ext "u1" "u1" "delete task 5" [] store =
      { out := .msgOut (deleteConfirmMsg " #5") [], store := store,
        added := [{ role := "user", content := "delete task 5" },
                  { role := "assistant", content := deleteConfirmMsg " #5" }],
        convTouched := true } ∧
    strContains (deleteConfirmMsg " #5") "5" = true ∧
    ((chatTurn ext "u1" "u1" "yes" histC1 store).out).execs.map
        (fun e => (e.tool, e.params)) =
      [("delete_task", [("task_id", PVal.num 5)])] ∧
    ((store.find? (fun x => x.id = 5 && x.user_id = "u1")).isSome = true →
      ((chatTurn ext "u1" "u1" "yes" histC1 store).store.filter
          (fun x => x.user_id = "u1")).length + 1 =
        (store.filter (fun x => x.user_id = "u1")).length) := by
  refine ⟨chatTurn_delete5_turn1 ext store, by decide, ?_, ?_⟩
  · cases hf : store.find? (fun x => x.id = 5 && x.user_id = "u1") with
    | some t =>
      rw [chatTurn_yes_red, runCalls_cDel5_some ext store t hf]
      rfl
    | none =>
      rw [chatTurn_yes_red, runCalls_cDel5_none ext store hf]
      rfl
  · intro hs
    cases hf : store.find? (fun x => x.id = 5 && x.user_id = "u1") with
    | none =>
      rw [hf] at hs
      exact absurd hs (by decide)
    | some t =>
      rw [chatTurn_yes_red, runCalls_cDel5_some ext store t hf]
      have hp := List.find?_some hf
      simp only [Bool.and_eq_true, decide_eq_true_eq] at hp
      exact find_length_eraseP _ _ store t hf (by simp [hp.2])

theorem C1_delete_task_5_witness :
    (storeC1w.find? (fun x => x.id = 5 && x.user_id = "u1")).isSome = true ∧
    ((chatTurn extTest "u1" "u1" "yes" histC1 storeC1w).store.filter
        (fun x => x.user_id = "u1")).length + 1 =
      (storeC1w.filter (fun x => x.user_id = "u1")).length :=
  ⟨by decide, (C1_delete_task_5 extTest storeC1w).2.2.2 (by decide)⟩

theorem forcedStage_delete_title (ext : Ext) (store : Store) (uid : String)
    (i : Intent) (h : List ChatMsg) (qt : String)
    (hOp : i.operation = "delete") (hTid : i.task_id = none)
    (hTt : i.task_title = some qt) :
    forcedStage ext store uid i h =
      (match resolveByTitle ext store uid qt "delete" with
       | .resolved tid =>
         .calls [{ tool := "delete_task", params := [("task_id", .num tid)] }]
       | .ask msg => .early msg
       | .fallthrough => .calls []) := by
  unfold forcedStage
  rw [hOp, hTid, hTt]
  rfl

/-- C5: For a confirmed delete intent carrying only a title phrase, the
target is resolved through find_task, which searches only the user's own
tasks; no fuzzy match with a nonempty task list yields the task listing as
an early reply, a best match below confidence 80 yields the
candidate-confirmation question as an early reply, a best match at 80 or
above resolves the target and forces exactly one delete call for it, and
every early reply leaves the store untouched with nothing executed
(corrected: with no match and no tasks at all the turn falls through to the
LLM instead of listing). -/
theorem C5_fuzzy_resolution (ext : Ext) (store : Store) (uid qt : String)
    (i : Intent) (hOp : i.operation = "delete") (hTid : i.task_id = none)
    (hTt : i.task_title = some qt) (hNc : i.needs_confirmation = false) :
    find_task ext store uid qt =
      find_task ext (store.filter (fun t => t.user_id = uid)) uid qt ∧
    (find_task ext store uid qt = none →
      store.filter (fun t => t.user_id = uid) ≠ [] →
      ∀ h, forcedStage ext store uid i h =
        .early (noMatchMsg qt (list_tasks store uid "all" "all").1)) ∧
    (∀ fr, find_task ext store uid qt = some fr → fr.confidence_score < 80 →
      ∀ h, forcedStage ext store uid i h = .early (lowConfMsg qt fr "delete")) ∧
    (∀ fr, find_task ext store uid qt = some fr → 80 ≤ fr.confidence_score →
      ∀ h, forcedStage ext store uid i h =
        .calls [{ tool := "delete_task", params := [("task_id", .num fr.task_id)] }]) ∧
    (∀ (m msg : String) (hh : List ChatMsg),
      (pyStrip m).length ≤ 10000 →
      detectIntent (pyStrip m) hh = some i →
      forcedStage ext store uid i hh = .early msg →
      chatTurn ext uid uid m hh store =
        { out := .msgOut msg [], store := store,
          added := [{ role := "user", content := pyStrip m },
                    { role := "assistant", content := msg }],
          convTouched := true }) := by
  refine ⟨?_, ?_, ?_, ?_, ?_⟩
  · have hff : (store.filter (fun t => t.user_id = uid)).filter
        (fun t => t.user_id = uid) = store.filter (fun t => t.user_id = uid) := by
      rw [List.filter_filter]
      exact List.filter_congr (fun x _ => by rw [Bool.and_self])
    unfold find_task
    rw [hff]
  · intro hFind hNe h
    rw [forcedStage_delete_title ext store uid i h qt hOp hTid hTt]
    unfold resolveByTitle
    rw [hFind]
    dsimp only
    have hlist : list_tasks store uid "all" "all" =
        (pySorted (fun a b => decide (b.created_at ≤ a.created_at))
          (store.filter (fun t => t.user_id = uid)),
         (pySorted (fun a b => decide (b.created_at ≤ a.created_at))
          (store.filter (fun t => t.user_id = uid))).length) := rfl
    rw [hlist]
    dsimp only
    have hts : (pySorted (fun a b => decide (b.created_at ≤ a.created_at))
        (store.filter (fun t => t.user_id = uid))).isEmpty = false := by
      cases hm : pySorted (fun a b => decide (b.created_at ≤ a.created_at))
          (store.filter (fun t => t.user_id = uid)) with
      | nil =>
        exfalso
        have hp2 := length_pySorted (fun a b => decide (b.created_at ≤ a.created_at))
          (store.filter (fun t => t.user_id = uid))
        rw [hm] at hp2
        exact hNe (List.eq_nil_of_length_eq_zero hp2.symm)
      | cons a l => rfl
    rw [hts]
    rfl
  · intro fr hFind hLt h
    rw [forcedStage_delete_title ext store uid i h qt hOp hTid hTt]
    unfold resolveByTitle
    rw [hFind]
    dsimp only
    rw [if_pos hLt]
  · intro fr hFind hGe h
    rw [forcedStage_delete_title ext store uid i h qt hOp hTid hTt]
    unfold resolveByTitle
    rw [hFind]
    dsimp only
    rw [if_neg (Nat.not_lt.mpr hGe)]
  · intro m msg hh hLen hDet hForced
    unfold chatTurn
    dsimp only
    rw [if_neg (by omega), if_neg (fun c => c rfl), hDet]
    dsimp only
    rw [if_neg (by simp [hNc]), hForced]

theorem C5_fuzzy_resolution_witness :
    forcedStage extTest storeC5 "u1" iC5 [] =
      .calls [{ tool := "delete_task", params := [("task_id", PVal.num 5)] }] :=
  (C5_fuzzy_resolution extTest storeC5 "u1" "buy milk" iC5 rfl rfl rfl rfl).2.2.2.1
    frC5 (by decide) (by decide) []

/-- C5 counterexample: with a confirmed delete-by-title intent and a user
who owns no tasks, a failed fuzzy lookup does not list the user's tasks —
the turn silently falls through to the LLM agent. -/
theorem C5_counterexample :
    detectIntent "yes" histC5 =
      some { operation := "delete", task_id := none, task_title := some "milk",
             params := [], needs_confirmation := false } ∧
    chatTurn extTest "u1" "u1" "yes" histC5 [] =
      { out := .llm [], store := [], added := [], convTouched := true } := by decide

end TaskMate
